import Mathlib

/-!
Verification of the SciScroll backend content engine
(`backend/content_engine.py`, with `slugify` from `backend/topic_graph.py`).

The Python code is shallowly embedded: dynamically-typed values are the
inductive `PyVal`, fallible code returns `Except PyErr`, Python ints are `ℤ`
(naturals where provably non-negative), and real-valued arithmetic is
modelled exactly over `ℚ` (the float formulas of the engine read as real
arithmetic; no verified property depends on binary-float rounding noise).
Character classes of the regular expressions are modelled over ASCII, which
is exact on every input the verified properties touch.
-/

namespace SciScroll

/-- A Python runtime value, as far as the content engine observes one:
`None`, bools, ints, floats (as exact rationals), strings, lists, and
string-keyed dicts (association lists with unique keys, preserving
insertion order, as Python dicts do). -/
inductive PyVal where
  | vNone : PyVal
  | vBool : Bool → PyVal
  | vInt : ℤ → PyVal
  | vFloat : ℚ → PyVal
  | vStr : String → PyVal
  | vList : List PyVal → PyVal
  | vDict : List (String × PyVal) → PyVal

/-- `isinstance(v, dict)` -/
def PyVal.isDict : PyVal → Bool
  | .vDict _ => true
  | _ => false

/-- `isinstance(v, str)` -/
def PyVal.isStr : PyVal → Bool
  | .vStr _ => true
  | _ => false

/-- Python truthiness, `bool(v)`. -/
def pyTruthy : PyVal → Bool
  | .vNone => false
  | .vBool b => b
  | .vInt n => n != 0
  | .vFloat q => q != 0
  | .vStr s => s != ""
  | .vList xs => !xs.isEmpty
  | .vDict es => !es.isEmpty

/-- `d.get(key, dflt)` on a dict body: value of the (unique) matching key,
the default when the key is absent.  A key stored with value `None`
yields `None`, not the default, exactly as in Python. -/
def pyDictGetD (entries : List (String × PyVal)) (key : String) (dflt : PyVal) : PyVal :=
  match entries.find? (fun p => p.1 == key) with
  | some p => p.2
  | none => dflt

/-- `key in d` -/
def pyHasKey (entries : List (String × PyVal)) (key : String) : Bool :=
  (entries.find? (fun p => p.1 == key)).isSome

/-- The Python exceptions the engine can meet: dispatching on a value of the
wrong dynamic type (`TypeError`) and calling a missing method/attribute
(`AttributeError`). -/
inductive PyErr where
  | typeError : PyErr
  | attributeError : PyErr
deriving DecidableEq, Repr

/-- Numeric value of an ASCII digit. -/
def charDigit (c : Char) : ℕ := c.toNat - 48

/-- Digit tail of a Python decimal int literal: single underscores are
allowed, but only between two digits. -/
def pyParseDigitsGo (acc : ℕ) : List Char → Option ℕ
  | [] => some acc
  | '_' :: c :: cs =>
      if c.isDigit then pyParseDigitsGo (acc * 10 + charDigit c) cs else none
  | c :: cs =>
      if c.isDigit then pyParseDigitsGo (acc * 10 + charDigit c) cs else none

/-- Nonempty digit run (with inner underscores) of a Python int literal. -/
def pyParseDigits : List Char → Option ℕ
  | c :: cs => if c.isDigit then pyParseDigitsGo (charDigit c) cs else none
  | [] => none

/-- Python `int(s)` on a string: surrounding whitespace is stripped, an
optional sign precedes decimal digits; `none` models the `ValueError`. -/
def pyIntOfString (s : String) : Option ℤ :=
  let cs := ((s.toList.dropWhile Char.isWhitespace).reverse.dropWhile
    Char.isWhitespace).reverse
  match cs with
  | '+' :: rest => (pyParseDigits rest).map (fun n => (n : ℤ))
  | '-' :: rest => (pyParseDigits rest).map (fun n => -(n : ℤ))
  | rest => (pyParseDigits rest).map (fun n => (n : ℤ))

/-- Python `int(x)` on a float: truncation toward zero. -/
def ratTruncTowardZero (q : ℚ) : ℤ := if 0 ≤ q then ⌊q⌋ else -⌊-q⌋

/-- Python `int(v)`: ints pass through, booleans count as 0/1, floats
truncate toward zero, strings parse as decimal literals.  `none` models the
`ValueError`/`TypeError` that `sanitize_time_data` catches. -/
def pyToInt : PyVal → Option ℤ
  | .vInt n => some n
  | .vBool b => some (if b then 1 else 0)
  | .vFloat q => some (ratTruncTowardZero q)
  | .vStr s => pyIntOfString s
  | _ => none

/-- Python `str(v)`.  Scalar cases are exact; the float and container cases
are abbreviated markers — no verified property observes those strings
(they can only reach the unused `current_node_id` field and block label
text). -/
def pyStr : PyVal → String
  | .vNone => "None"
  | .vBool b => if b then "True" else "False"
  | .vInt n => toString n
  | .vFloat q => toString q
  | .vStr s => s
  | .vList _ => "<list repr>"
  | .vDict _ => "<dict repr>"

/-- The sanitized telemetry record: the six keys `sanitize_time_data`
guarantees.  Numeric fields stay `ℤ` (Python ints); their non-negativity is
proved, not baked into the type. -/
structure TimeData where
  current_node_id : String
  total_time_on_node_ms : ℤ
  scroll_events : ℤ
  go_deeper_clicks : ℤ
  sections_in_current_node : ℤ
  time_per_section_ms : ℤ
deriving DecidableEq, Repr

/-- The `defaults` dict of `sanitize_time_data`. -/
def timeDataDefaults : TimeData :=
  { current_node_id := ""
    total_time_on_node_ms := 0
    scroll_events := 0
    go_deeper_clicks := 0
    sections_in_current_node := 1
    time_per_section_ms := 0 }

/-- One numeric field of `sanitize_time_data`:
`val = time_data.get(key, default)`; `int(val) if val is not None else
default` with `ValueError`/`TypeError` falling back to the default; then
`max(0, val)`. -/
def sanitizeNumField (entries : List (String × PyVal)) (key : String)
    (dflt : ℤ) : ℤ :=
  let val := pyDictGetD entries key (.vInt dflt)
  let i : ℤ :=
    match val with
    | .vNone => dflt
    | v => (pyToInt v).getD dflt
  max 0 i

/-- `sanitize_time_data` -/
def sanitize_time_data (time_data : PyVal) : TimeData :=
  match time_data with
  | .vDict entries =>
      let cid :=
        match pyDictGetD entries "current_node_id" (.vStr "") with
        | .vNone => ""
        | v => pyStr v
      let sections := sanitizeNumField entries "sections_in_current_node" 1
      { current_node_id := cid
        total_time_on_node_ms := sanitizeNumField entries "total_time_on_node_ms" 0
        scroll_events := sanitizeNumField entries "scroll_events" 0
        go_deeper_clicks := sanitizeNumField entries "go_deeper_clicks" 0
        -- sections must be at least 1 to avoid division by zero
        sections_in_current_node := if sections < 1 then 1 else sections
        time_per_section_ms := sanitizeNumField entries "time_per_section_ms" 0 }
  | _ => timeDataDefaults

/-- Round half-to-even to an integer — Python's `round`. -/
def roundHalfEven (q : ℚ) : ℤ :=
  let f := ⌊q⌋
  let r := q - (f : ℚ)
  if r < 1/2 then f
  else if (1 : ℚ)/2 < r then f + 1
  else if f % 2 = 0 then f else f + 1

/-- Python `round(x, 4)`. -/
def round4 (q : ℚ) : ℚ := (roundHalfEven (q * 10000) : ℚ) / 10000

/-- The factor computation of `compute_engagement_score` on an
already-sanitized record (the body of the function after its
`sanitize_time_data` call). -/
def engagementScoreOfTd (td : TimeData) : ℚ :=
  -- Time factor: 0-60s maps to 0-1
  let time_factor : ℚ := min 1 ((td.total_time_on_node_ms : ℚ) / 60000)
  -- Scroll factor: 0-10 scrolls maps to 0-1
  let scroll_factor : ℚ := min 1 ((td.scroll_events : ℚ) / 10)
  -- Click factor: each go_deeper_click adds 0.5, capped at 1.0
  let click_factor : ℚ := min 1 ((td.go_deeper_clicks : ℚ) * (1/2))
  -- Section variance: how evenly time is distributed across sections
  let variance_factor : ℚ :=
    if 0 < td.total_time_on_node_ms ∧ 0 < td.sections_in_current_node then
      let expected_per_section :=
        (td.total_time_on_node_ms : ℚ) / (td.sections_in_current_node : ℚ)
      if 0 < expected_per_section then
        min 1 ((td.time_per_section_ms : ℚ) / expected_per_section)
      else 0
    else 0
  let score :=
    30/100 * time_factor + 20/100 * scroll_factor + 30/100 * click_factor
      + 20/100 * variance_factor
  round4 (max 0 (min 1 score))

/-- `compute_engagement_score` -/
def compute_engagement_score (time_data : PyVal) : ℚ :=
  engagementScoreOfTd (sanitize_time_data time_data)

/-- `select_strategy` -/
def select_strategy (engagement_score : ℚ) : String :=
  if 65/100 ≤ engagement_score then "deeper"
  else if 35/100 ≤ engagement_score then "branch"
  else "pivot"

/-! ### Slug utility (`topic_graph.slugify`) and node construction -/

/-- `\w` over ASCII: letters, digits, underscore. -/
def isWordChar (c : Char) : Bool := c.isAlphanum || c == '_'

/-- `[\s_]` -/
def isSpaceUnder (c : Char) : Bool := c.isWhitespace || c == '_'

/-- Strip matching characters from both ends (`str.strip`). -/
def stripChars (p : Char → Bool) (cs : List Char) : List Char :=
  ((cs.dropWhile p).reverse.dropWhile p).reverse

/-- `str.strip()` on the character list. -/
def pyStripWs (cs : List Char) : List Char := stripChars Char.isWhitespace cs

/-- Worker for `re.sub(r"[\s_]+", "-", s)`: the flag records whether the
previous character belonged to the replaced class, so each maximal
whitespace/underscore run contributes exactly one hyphen. -/
def collapseSpaceUnderscoreGo : Bool → List Char → List Char
  | _, [] => []
  | inRun, c :: cs =>
    if isSpaceUnder c then
      (if inRun then [] else ['-']) ++ collapseSpaceUnderscoreGo true cs
    else c :: collapseSpaceUnderscoreGo false cs

/-- `re.sub(r"[\s_]+", "-", s)`: every maximal run of whitespace/underscore
becomes one hyphen. -/
def collapseSpaceUnderscore (cs : List Char) : List Char :=
  collapseSpaceUnderscoreGo false cs

/-- Worker for `re.sub(r"-{2,}", "-", s)` in the same run-tracking style
(a lone hyphen is its own run and stays a single hyphen). -/
def collapseHyphenRunsGo : Bool → List Char → List Char
  | _, [] => []
  | inRun, c :: cs =>
    if c == '-' then
      (if inRun then [] else ['-']) ++ collapseHyphenRunsGo true cs
    else c :: collapseHyphenRunsGo false cs

/-- `re.sub(r"-{2,}", "-", s)`: hyphen runs collapse to a single hyphen. -/
def collapseHyphenRuns (cs : List Char) : List Char :=
  collapseHyphenRunsGo false cs

/-- `slugify` from `topic_graph.py`.  Character classes are ASCII (`\w`,
`\s`, `lower()`); exact on every slug and label the verified properties
use. -/
def slugify (text : String) : String :=
  if text == "" || (pyStripWs text.toList).isEmpty then ""
  else
    -- s = text.lower().strip()
    let s := pyStripWs (text.toList.map Char.toLower)
    -- s = re.sub(r"[^\w\s-]", "", s)
    let s := s.filter (fun c => isWordChar c || c.isWhitespace || c == '-')
    -- s = re.sub(r"[\s_]+", "-", s); s = re.sub(r"-{2,}", "-", s)
    let s := collapseHyphenRuns (collapseSpaceUnderscore s)
    -- s = s.strip("-")
    let s := stripChars (· == '-') s
    -- if len(s) > 80: s = s[:80].rsplit("-", 1)[0]
    let s := if s.length > 80 then
        let t := s.take 80
        if t.contains '-' then ((t.reverse.dropWhile (· != '-')).tail).reverse else t
      else s
    String.mk s

/-- A next-node suggestion dict `{"id": ..., "label": ..., "description": ...}`.
Whenever the engine appends one, `id` and `label` are strings; the
description can be any plan-supplied value. -/
structure NextNode where
  id : String
  label : String
  description : PyVal

/-- Modelled from the spec: `make_node` is imported by the content engine
from the topic-graph module, but its definition is not among the provided
sources (only its callers and tests are).  Following the spec's
NodeSuggestion data model and fallback description, it builds a node from a
label: `id` is the slugified label, `label` is kept verbatim, and the
description (empty when the caller supplies none) is stored as given. -/
def make_node (label : String) (description : String) : NextNode :=
  { id := slugify label, label := label, description := .vStr description }

/-- Python `s.replace("-", " ")`. -/
def replaceDashWithSpace (s : String) : String :=
  String.mk (s.toList.map (fun c => if c == '-' then ' ' else c))

/-- Worker for `pyTitle`: tracks whether the previous character was cased. -/
def pyTitleGo : Bool → List Char → List Char
  | _, [] => []
  | prevCased, c :: cs =>
    if c.isAlpha then
      (if prevCased then c.toLower else c.toUpper) :: pyTitleGo true cs
    else c :: pyTitleGo false cs

/-- Python `s.title()` over ASCII: the first letter of each run of cased
characters is uppercased, the following ones lowercased. -/
def pyTitle (s : String) : String := String.mk (pyTitleGo false s.toList)

/-! ### Media variety tracking (`MediaVarietyTracker`) -/

/-- `MEDIA_TYPES` -/
def MEDIA_TYPES : List String :=
  ["unsplash", "wikipedia_image", "wikimedia", "reddit", "xkcd", "meme", "tweet"]

/-- The mutable state of a `MediaVarietyTracker`: configured kinds, the
pending deque (head = next `popleft`), and the last emitted kind. -/
structure TrackerState where
  types : List String
  queue : List String
  last : Option String

/-- `MediaVarietyTracker.__init__`: `list(media_types or MEDIA_TYPES)` — an
absent or empty argument falls back to the default kinds. -/
def trackerInit (media_types : Option (List String)) : TrackerState :=
  let ts := match media_types with
    | some l => if l.isEmpty then MEDIA_TYPES else l
    | none => MEDIA_TYPES
  { types := ts, queue := ts, last := none }

/-- The avoid-consecutive-duplicates loop of `next_type`: pop the head;
while it equals the last draw, more than one kind is configured and
attempts remain (`attempts < len(self._types)`, encoded as fuel counting
down from `len(self._types)`), requeue it at the back and redraw.  The
empty-deque case cannot arise (the caller refills first and `_types` is
never empty); it stands for the `IndexError` of `popleft` and returns a
junk draw. -/
def popAvoid (types : List String) (last : Option String) :
    List String → ℕ → String × List String
  | [], _ => ("", [])
  | x :: q, 0 => (x, q)
  | x :: q, fuel + 1 =>
    if some x = last ∧ 1 < types.length then popAvoid types last (q ++ [x]) fuel
    else (x, q)

/-- `next_type`, with the `random.shuffle` outcome injected as the oracle
`shuffle` (any permutation of its argument). -/
def next_type (shuffle : List String → List String) (s : TrackerState) :
    String × TrackerState :=
  let q := if s.queue.isEmpty then shuffle s.types else s.queue
  let p := popAvoid s.types s.last q s.types.length
  (p.1, { types := s.types, queue := p.2, last := some p.1 })

/-- Run the tracker `n` calls from state `s`; `shuffles i` is the shuffle
outcome available to call `i`.  Returns the emitted kinds in order together
with the final state. -/
def runTracker (shuffles : ℕ → List String → List String) :
    TrackerState → ℕ → List String × TrackerState
  | s, 0 => ([], s)
  | s, n + 1 =>
    let p := next_type (shuffles 0) s
    let r := runTracker (fun i => shuffles (i + 1)) p.2 n
    (p.1 :: r.1, r.2)

/-! ### External collaborators (`api_clients` dict) -/

/-- A media-source collaborator: availability flag plus its fetch method.
`Except.error` models a raised exception; `.vNone` models a `None`
return. -/
structure MediaClient where
  is_available : Bool
  fetch : PyVal → Except PyErr PyVal

/-- The captioned-image collaborator (`ImgflipClient.get_meme(query,
top_text=..., bottom_text=...)`). -/
structure MemeClient where
  is_available : Bool
  fetch : PyVal → PyVal → PyVal → Except PyErr PyVal

/-- The generative-orchestrator collaborator.  `generate_json` never raises
(every internal failure returns `None`), so it is a total function into
`PyVal`. -/
structure ClaudeClient where
  is_available : Bool
  generate_json : String → String → PyVal

/-- The `api_clients` dict; a `none` field is a key missing from the map
(`dict.get` → `None`). -/
structure ApiClients where
  claude : Option ClaudeClient
  unsplash : Option MediaClient
  reddit : Option MediaClient
  twitter : Option MediaClient
  wikipedia : Option MediaClient
  wikimedia : Option MediaClient
  imgflip : Option MemeClient
  xkcd : Option MediaClient

/-- `get_available_apis` from `api_clients.py`: name → `is_available` for
every present client, in the insertion order of `create_api_clients`. -/
def get_available_apis (c : ApiClients) : List (String × Bool) :=
  (([("claude", c.claude.map (·.is_available)),
     ("unsplash", c.unsplash.map (·.is_available)),
     ("reddit", c.reddit.map (·.is_available)),
     ("twitter", c.twitter.map (·.is_available)),
     ("wikipedia", c.wikipedia.map (·.is_available)),
     ("wikimedia", c.wikimedia.map (·.is_available)),
     ("imgflip", c.imgflip.map (·.is_available)),
     ("xkcd", c.xkcd.map (·.is_available))] :
    List (String × Option Bool)).filterMap
    (fun p => p.2.map (fun b => (p.1, b))))

/-! ### Media resolution dispatcher -/

/-- Python `v == s` for a string literal `s` (no exception, `False` across
types). -/
def PyVal.eqStr : PyVal → String → Bool
  | .vStr t, s => t == s
  | _, _ => false

/-- `is None` -/
def PyVal.isNone : PyVal → Bool
  | .vNone => true
  | _ => false

/-- Number of maximal whitespace-separated words (`len(s.split())`); the
flag records whether the previous character was inside a word. -/
def countWordsGo : Bool → List Char → ℕ
  | _, [] => 0
  | inWord, c :: cs =>
    if c.isWhitespace then countWordsGo false cs
    else (if inWord then 0 else 1) + countWordsGo true cs

/-- `len(query.split())` -/
def countWords (s : String) : ℕ := countWordsGo false s.toList

/-- `_clean_query_for_wikipedia`: queries of at most 3 words pass through,
longer ones are replaced by the topic label.  `query.split()` on a
non-string raises (inside the dispatcher's try block). -/
def _clean_query_for_wikipedia (query : PyVal) (topic_label : String) :
    Except PyErr PyVal :=
  match query with
  | .vStr s =>
      if countWords s ≤ 3 then .ok (.vStr s)
      else .ok (.vStr topic_label)
  | _ => .error .attributeError

/-- Substring search over character lists (Python `needle in haystack`). -/
def containsSublist (needle : List Char) : List Char → Bool
  | [] => needle.isEmpty
  | c :: cs => needle.isPrefixOf (c :: cs) || containsSublist needle cs

/-- Python `needle in haystack` on strings. -/
def containsSubstring (haystack needle : String) : Bool :=
  containsSublist needle.toList haystack.toList

/-- Python `s.lower()` (ASCII). -/
def strLower (s : String) : String := String.mk (s.toList.map Char.toLower)

/-- The try-block of `_resolve_media`: the `elif` chain keyed on the
requested kind.  Each Python branch tests `media_type == kind and
api_clients.get(name)`; the seven kind strings are distinct, so a matching
kind whose client is missing makes every branch fail and leaves
`result = None` — here `.ok .vNone`. -/
def dispatchMedia (api_clients : ApiClients) (topic_label : String)
    (media_type query top_text bottom_text : PyVal) : Except PyErr PyVal :=
  if media_type.eqStr "unsplash" then
    match api_clients.unsplash with
    | some cl => cl.fetch query
    | none => .ok .vNone
  else if media_type.eqStr "wikipedia_image" then
    match api_clients.wikipedia with
    | some cl =>
        -- Clean the query to match Wikipedia article titles
        match _clean_query_for_wikipedia query topic_label with
        | .ok clean_query => cl.fetch clean_query
        | .error e => .error e
    | none => .ok .vNone
  else if media_type.eqStr "wikimedia" then
    match api_clients.wikimedia with
    | some cl => cl.fetch query
    | none => .ok .vNone
  else if media_type.eqStr "reddit" then
    match api_clients.reddit with
    | some cl => cl.fetch query
    | none => .ok .vNone
  else if media_type.eqStr "xkcd" then
    match api_clients.xkcd with
    | some cl => cl.fetch query
    | none => .ok .vNone
  else if media_type.eqStr "meme" then
    match api_clients.imgflip with
    | some cl =>
        -- Pass Claude's generated captions to Imgflip
        cl.fetch query top_text bottom_text
    | none => .ok .vNone
  else if media_type.eqStr "tweet" then
    match api_clients.twitter with
    | some cl => cl.fetch query
    | none => .ok .vNone
  else .ok .vNone

/-- `_resolve_media`: execute one media request.  Collaborator exceptions
are confined to the try block (`result` stays `None`); the placeholder-URL
guard runs afterwards and discards any dict result whose lowercased URL
contains `"placeholder"`.  (`url.lower()` on a non-string URL raises
outside the try block.) -/
def _resolve_media (media_request : PyVal) (topic_label : String)
    (api_clients : ApiClients) : Except PyErr PyVal :=
  if !(pyTruthy media_request) || !media_request.isDict then .ok .vNone
  else
    match media_request with
    | .vDict entries =>
      let media_type := pyDictGetD entries "type" (.vStr "unsplash")
      let query := pyDictGetD entries "query" (.vStr topic_label)
      let top_text := pyDictGetD entries "top_text" .vNone
      let bottom_text := pyDictGetD entries "bottom_text" .vNone
      let result : PyVal :=
        match dispatchMedia api_clients topic_label media_type query
            top_text bottom_text with
        | .ok v => v
        | .error _ => .vNone   -- except Exception: logged, result stays None
      -- Reject placeholder/hallucinated URLs
      if pyTruthy result && result.isDict then
        match result with
        | .vDict res =>
          (match pyDictGetD res "url" (.vStr "") with
           | .vStr url =>
               if containsSubstring (strLower url) "placeholder" then .ok .vNone
               else .ok result
           | _ => .error .attributeError)
        | _ => .ok result
      else .ok result
    | _ => .ok .vNone

/-! ### Orchestration protocol -/

/-- The fixed system instruction sent to the orchestrator (abbreviated: the
client is modelled as an opaque function of the two prompt strings, so the
instruction text takes no part in any verified property). -/
def CLAUDE_SYSTEM_PROMPT : String :=
  "You are the content orchestrator for SciScroll, an infinite scientific knowledge graph explorer."

/-- `json.dumps` of a list of plain strings (escape-free content). -/
def jsonDumpsStrList (xs : List String) : String :=
  "[" ++ String.intercalate ", " (xs.map (fun s => "\"" ++ s ++ "\"")) ++ "]"

/-- `"groups" in result` for a dict value. -/
def pyValHasKey (v : PyVal) (key : String) : Bool :=
  match v with
  | .vDict es => pyHasKey es key
  | _ => false

/-- `generate_content_with_claude`: availability gate, prompt construction
and the structural check on the reply.  Numeric formatting in the prompt is
`toString` on `ℚ` rather than CPython float repr; the prompt string is
consumed only by the opaque client. -/
def generate_content_with_claude (topic_label strategy : String)
    (visited_nodes : List String) (last_paragraph : Option String)
    (engagement_score : ℚ) (available_apis : List (String × Bool))
    (claude_client : Option ClaudeClient) : Option PyVal :=
  match claude_client with
  | none => none
  | some client =>
    if !client.is_available then none
    else
      -- Filter available_apis to only ones that are True
      let apis_available :=
        (available_apis.filter (fun p => p.2 && p.1 != "claude")).map Prod.fst
      -- Map API names to media types
      let api_to_media : List (String × String) :=
        [("unsplash", "unsplash"), ("wikipedia", "wikipedia_image"),
         ("wikimedia", "wikimedia"), ("reddit", "reddit"), ("xkcd", "xkcd"),
         ("imgflip", "meme"), ("twitter", "tweet")]
      let available_media_types :=
        apis_available.filterMap (fun a => api_to_media.lookup a)
      let user_prompt :=
        "Topic: " ++ topic_label ++ "\nStrategy: " ++ strategy ++
        "\nEngagement Score: " ++ toString engagement_score ++
        "\nVisited Nodes: " ++ jsonDumpsStrList visited_nodes ++
        "\nLast Paragraph: " ++
        (match last_paragraph with
         | some s => if s == "" then "None (first content)" else s
         | none => "None (first content)") ++
        "\n\nAvailable media types: " ++ jsonDumpsStrList available_media_types ++
        "\n\nGenerate educational content following the " ++ strategy ++
        " strategy.\nSuggest 2-4 next_nodes the user hasn't visited yet."
      let result := client.generate_json CLAUDE_SYSTEM_PROMPT user_prompt
      if pyTruthy result && result.isDict && pyValHasKey result "groups" then
        some result
      else none

/-! ### Response assembly (`generate_content_blocks`) -/

/-- One rendered content block (a Python dict in the source).  `type` is
`"text"` for text blocks and the plan's media kind for media blocks; text
blocks carry `media = none`. -/
structure Block where
  id : String
  type : PyVal
  content : PyVal
  group_id : String
  group_role : PyVal
  media : Option PyVal

/-- `_uid(prefix)`: `uuid4().hex[:8]` is an injected supply of fresh
strings (`uid k` = the k-th draw); a falsy prefix yields the bare draw. -/
def pyUid (uid : ℕ → String) (k : ℕ) (pre : PyVal) : String :=
  if pyTruthy pre then pyStr pre ++ "-" ++ uid k else uid k

/-- `group_data.get(...)` requires a dict; anything else raises
`AttributeError`. -/
def pyAsDict : PyVal → Except PyErr (List (String × PyVal))
  | .vDict es => .ok es
  | _ => .error .attributeError

/-- Python iteration (`for x in v`): lists yield elements, dicts yield
their keys, strings yield 1-character strings; other values raise
`TypeError`. -/
def pyIter : PyVal → Except PyErr (List PyVal)
  | .vList xs => .ok xs
  | .vDict es => .ok (es.map (fun p => PyVal.vStr p.1))
  | .vStr s => .ok (s.toList.map (fun c => PyVal.vStr (String.mk [c])))
  | _ => .error .typeError

/-- One iteration of the group loop of `generate_content_blocks`: emits the
group's text block (when the text is truthy) and its media block (when the
media request is truthy and resolution returns a non-`None` payload).
`k` counts `_uid` draws. -/
def buildBlocksOne (api_clients : ApiClients) (topic_label : String)
    (uid : ℕ → String) (group_data : PyVal) (k : ℕ) :
    Except PyErr (List Block × ℕ) :=
  match pyAsDict group_data with
  | .error e => .error e
  | .ok entries =>
    let group_id := pyUid uid k (.vStr "grp")
    let k1 := k + 1
    -- Text block
    let text := pyDictGetD entries "text" .vNone
    let textState : List Block × ℕ :=
      if pyTruthy text then
        ([{ id := pyUid uid k1 (.vStr "text"), type := .vStr "text",
            content := text, group_id := group_id,
            group_role := pyDictGetD entries "group_role_text" (.vStr "explanation"),
            media := none }], k1 + 1)
      else ([], k1)
    -- Media block — skip if API returns nothing
    let media_request := pyDictGetD entries "media_request" .vNone
    if pyTruthy media_request then
      match pyAsDict media_request with
      | .error e => .error e
      | .ok mr =>
        let media_type := pyDictGetD mr "type" (.vStr "unsplash")
        match _resolve_media media_request topic_label api_clients with
        | .error e => .error e
        | .ok media_data =>
          if !media_data.isNone then
            .ok (textState.1 ++
              [{ id := pyUid uid textState.2 media_type, type := media_type,
                 content := .vStr (topic_label ++ " — " ++ pyStr media_type ++ " content"),
                 group_id := group_id,
                 group_role := pyDictGetD entries "group_role_media" (.vStr "visual"),
                 media := some media_data }], textState.2 + 1)
          else .ok textState
    else .ok textState

/-- The full group loop. -/
def buildBlocks (api_clients : ApiClients) (topic_label : String)
    (uid : ℕ → String) : List PyVal → ℕ → Except PyErr (List Block × ℕ)
  | [], k => .ok ([], k)
  | g :: gs, k =>
    match buildBlocksOne api_clients topic_label uid g k with
    | .error e => .error e
    | .ok (bs, k1) =>
      match buildBlocks api_clients topic_label uid gs k1 with
      | .error e => .error e
      | .ok (rest, kf) => .ok (bs ++ rest, kf)

/-- Python `elem in set(visited)` for a set of node-id strings: strings
test membership, other hashable scalars are simply absent, unhashable
containers raise `TypeError`. -/
def pyStrSetMem (v : PyVal) (visited : List String) : Except PyErr Bool :=
  match v with
  | .vStr s => .ok (visited.contains s)
  | .vList _ => .error .typeError
  | .vDict _ => .error .typeError
  | _ => .ok false

/-- One iteration of the next-node loop of `generate_content_blocks`:
a bare string candidate is kept (titled and re-slugged through `make_node`)
unless its raw value is in the visited set; a dict candidate derives its id
from the slugified label (falling back to the raw `id` value), is dropped
when falsy or visited, and otherwise yields the id/label/description node;
any other candidate shape is skipped silently. -/
def buildNextNodeOne (visited : List String) (node_data : PyVal) :
    Except PyErr (Option NextNode) :=
  match node_data with
  | .vStr nid =>
    -- Backward compat: bare slug string
    if visited.contains nid then .ok none
    else .ok (some (make_node (pyTitle (replaceDashWithSpace nid)) ""))
  | .vDict es =>
    let label := pyDictGetD es "label" (.vStr "")
    let desc := pyDictGetD es "description" (.vStr "")
    -- nid = slugify(label) if label else node_data.get("id", "")
    match (if pyTruthy label then
            match label with
            | .vStr l => Except.ok (PyVal.vStr (slugify l))
            | _ => Except.error PyErr.attributeError  -- slugify on a non-string
          else Except.ok (pyDictGetD es "id" (.vStr ""))) with
    | .error e => .error e
    | .ok nid =>
      if pyTruthy nid then
        match pyStrSetMem nid visited with
        | .error e => .error e
        | .ok true => .ok none
        | .ok false =>
          match nid with
          | .vStr nidS =>
            -- {"id": nid, "label": label or nid.replace("-"," ").title(), ...}
            .ok (some { id := nidS,
                        label := (match label with
                          | .vStr l =>
                              if l == "" then pyTitle (replaceDashWithSpace nidS)
                              else l
                          | _ => pyTitle (replaceDashWithSpace nidS)),
                        description := desc })
          | _ => .error .attributeError  -- nid.replace on a non-string
      else .ok none
  | _ => .ok none

/-- The full next-node loop (filtering only; the fallback lives in
`generate_content_blocks`). -/
def buildNextNodes (visited : List String) :
    List PyVal → Except PyErr (List NextNode)
  | [] => .ok []
  | node_data :: rest =>
    match buildNextNodeOne visited node_data with
    | .error e => .error e
    | .ok mb =>
      match buildNextNodes visited rest with
      | .error e => .error e
      | .ok ns => .ok (mb.toList ++ ns)

/-- `plan.get(key, dflt)`; every call site has already established that the
plan is a dict. -/
def pyValGetD (v : PyVal) (key : String) (dflt : PyVal) : PyVal :=
  match v with
  | .vDict es => pyDictGetD es key dflt
  | _ => dflt

/-- The two generic fallback suggestions synthesized from the topic label
when the filtered next-node list is empty. -/
def fallbackNextNodes (topic_label : String) : List NextNode :=
  [make_node (topic_label ++ " Deep Dive")
     ("Explore " ++ topic_label ++ " in greater detail"),
   make_node ("Beyond " ++ topic_label)
     ("Topics related to " ++ topic_label)]

/-- `generate_content_blocks`.  `.ok (none, none)` is the Python
`return None, None` on orchestration failure; `.error` is an uncaught
exception escaping the function (possible only on a malformed plan). -/
def generate_content_blocks (topic_id strategy : String)
    (visited_nodes : List String) (last_paragraph : Option String)
    (engagement_score : ℚ) (api_clients : ApiClients) (uid : ℕ → String) :
    Except PyErr (Option (List Block) × Option (List NextNode)) :=
  let claude_client := api_clients.claude
  let available_apis := get_available_apis api_clients
  let topic_label := pyTitle (replaceDashWithSpace topic_id)
  -- Try Claude orchestration
  let claude_plan := generate_content_with_claude topic_label strategy
    visited_nodes last_paragraph engagement_score available_apis claude_client
  match claude_plan with
  | none => .ok (none, none)
  | some plan =>
    -- Execute Claude's plan
    match pyIter (pyValGetD plan "groups" (.vList [])) with
    | .error e => .error e
    | .ok groups =>
      match buildBlocks api_clients topic_label uid groups 0 with
      | .error e => .error e
      | .ok (blocks, _) =>
        -- Next nodes from Claude's plan — full dicts with id/label/description
        match pyIter (pyValGetD plan "next_nodes" (.vList [])) with
        | .error e => .error e
        | .ok claude_next =>
          match buildNextNodes visited_nodes claude_next with
          | .error e => .error e
          | .ok next_nodes =>
            -- If Claude returned no valid nodes, generate generic ones
            let next_nodes := if next_nodes.isEmpty then
                fallbackNextNodes topic_label
              else next_nodes
            .ok (some blocks, some next_nodes)

/-! ### Auxiliary modelling definitions used by the statements -/

/-- A well-typed telemetry dict exactly as the frontend sends one: the five
numeric keys carry Python ints. -/
def mkTelemetry (t scr clk sec tps : ℤ) : PyVal :=
  .vDict [("current_node_id", .vStr ""),
          ("total_time_on_node_ms", .vInt t),
          ("scroll_events", .vInt scr),
          ("go_deeper_clicks", .vInt clk),
          ("sections_in_current_node", .vInt sec),
          ("time_per_section_ms", .vInt tps)]

/-- The scoring formula exactly as the specification words it:
`0.30·min(1, total_time_ms/60000) + 0.20·min(1, scroll_events/10) +
0.30·min(1, deepen_clicks·0.5) + 0.20·min(1, time_per_section_ms /
(total_time_ms / sections_in_node))` with the variance factor 0 when the
total time or the divisor is zero, clamped to `[0,1]` and rounded to 4
decimal places.  Stated to be compared against the code's
`compute_engagement_score`. -/
def specScoreFormula (td : TimeData) : ℚ :=
  let time_factor : ℚ := min 1 ((td.total_time_on_node_ms : ℚ) / 60000)
  let scroll_factor : ℚ := min 1 ((td.scroll_events : ℚ) / 10)
  let click_factor : ℚ := min 1 ((td.go_deeper_clicks : ℚ) * (1/2))
  let divisor : ℚ :=
    (td.total_time_on_node_ms : ℚ) / (td.sections_in_current_node : ℚ)
  let variance_factor : ℚ :=
    if td.total_time_on_node_ms = 0 ∨ divisor = 0 then 0
    else min 1 ((td.time_per_section_ms : ℚ) / divisor)
  round4 (max 0 (min 1 (30/100 * time_factor + 20/100 * scroll_factor +
    30/100 * click_factor + 20/100 * variance_factor)))


/-- A collaborators map with every key absent. -/
def noApiClients : ApiClients :=
  { claude := none, unsplash := none, reddit := none, twitter := none,
    wikipedia := none, wikimedia := none, imgflip := none, xkcd := none }

/-- A collaborators map whose only entry is an orchestrator that always
replies with `plan`. -/
def claudeOnlyClients (plan : PyVal) : ApiClients :=
  { noApiClients with claude := some ⟨true, fun _ _ => plan⟩ }

/-- A photo collaborator whose call raises. -/
def raisingUnsplashClients : ApiClients :=
  { noApiClients with unsplash := some ⟨true, fun _ => .error .typeError⟩ }

/-- A photo collaborator that returns a result whose URL carries the
placeholder marker. -/
def placeholderUnsplashClients : ApiClients :=
  { noApiClients with unsplash := some ⟨true, fun _ => .ok (.vDict
      [("url", .vStr "https://img.example/placeholder-1.png"),
       ("source", .vStr "Unsplash")])⟩ }

/-- A deterministic `_uid` hex supply for concrete runs. -/
def seqUid : ℕ → String := fun n => "u" ++ toString n

/-- A plan whose two next-node candidates carry the same label. -/
def dupLabelPlan : PyVal := .vDict [("groups", .vList []),
  ("next_nodes", .vList [.vDict [("label", .vStr "X")],
                         .vDict [("label", .vStr "X")]])]

/-- A structurally valid plan with no groups and no next-node candidates. -/
def emptyNextPlan : PyVal := .vDict [("groups", .vList []),
  ("next_nodes", .vList [])]

/-! ## Theorems

### Rounding and sanitization lemmas -/

theorem roundHalfEven_nonneg {q : ℚ} (h : 0 ≤ q) : 0 ≤ roundHalfEven q := by
  have h0 : 0 ≤ ⌊q⌋ := Int.floor_nonneg.mpr h
  simp only [roundHalfEven]
  split_ifs <;> omega

theorem roundHalfEven_le_add_half (q : ℚ) :
    (roundHalfEven q : ℚ) ≤ q + 1/2 := by
  have h1 : (⌊q⌋ : ℚ) ≤ q := Int.floor_le q
  simp only [roundHalfEven]
  split_ifs with h2 h3 h4
  · linarith
  · push_cast; linarith
  · linarith
  · push_cast
    have : q - (⌊q⌋ : ℚ) = 1/2 := le_antisymm (not_lt.mp h3) (not_lt.mp h2)
    linarith

theorem roundHalfEven_mono {a b : ℚ} (h : a ≤ b) :
    roundHalfEven a ≤ roundHalfEven b := by
  have hfab : ⌊a⌋ ≤ ⌊b⌋ := Int.floor_le_floor h
  rcases eq_or_lt_of_le hfab with heq | hlt
  · have hcast : ((⌊a⌋ : ℤ) : ℚ) = ((⌊b⌋ : ℤ) : ℚ) := by exact_mod_cast heq
    have hr : a - (⌊a⌋ : ℚ) ≤ b - (⌊b⌋ : ℚ) := by rw [← hcast]; linarith
    simp only [roundHalfEven, ← heq, ← hcast]
    split_ifs <;> first | omega | linarith
  · have ha : roundHalfEven a ≤ ⌊a⌋ + 1 := by
      simp only [roundHalfEven]; split_ifs <;> omega
    have hb : ⌊b⌋ ≤ roundHalfEven b := by
      simp only [roundHalfEven]; split_ifs <;> omega
    omega

theorem round4_mono {a b : ℚ} (h : a ≤ b) : round4 a ≤ round4 b := by
  unfold round4
  have hm : roundHalfEven (a * 10000) ≤ roundHalfEven (b * 10000) :=
    roundHalfEven_mono (by linarith)
  exact (div_le_div_iff_of_pos_right (by norm_num)).mpr (by exact_mod_cast hm)

theorem round4_mem_unit {q : ℚ} (h0 : 0 ≤ q) (h1 : q ≤ 1) :
    0 ≤ round4 q ∧ round4 q ≤ 1 := by
  have ha : 0 ≤ roundHalfEven (q * 10000) := roundHalfEven_nonneg (by positivity)
  have hb : (roundHalfEven (q * 10000) : ℚ) ≤ q * 10000 + 1/2 :=
    roundHalfEven_le_add_half _
  have hc : roundHalfEven (q * 10000) ≤ 10000 := by
    by_contra hlt
    push_neg at hlt
    have : (10001 : ℚ) ≤ (roundHalfEven (q * 10000) : ℚ) := by exact_mod_cast hlt
    nlinarith
  constructor
  · exact div_nonneg (by exact_mod_cast ha) (by norm_num)
  · rw [round4, div_le_one (by norm_num)]
    exact_mod_cast hc

/-- The clamp-then-round tail of the scorer is monotone. -/
theorem scoreClamp_mono {a b : ℚ} (h : a ≤ b) :
    round4 (max 0 (min 1 a)) ≤ round4 (max 0 (min 1 b)) :=
  round4_mono (max_le_max le_rfl (min_le_min le_rfl h))

/-- `sanitize_time_data` on a canonically-typed telemetry dict: values pass
through `max 0` and the sections floor. -/
theorem sanitize_mkTelemetry (t scr clk sec tps : ℤ) :
    sanitize_time_data (mkTelemetry t scr clk sec tps) =
      ⟨"", max 0 t, max 0 scr, max 0 clk,
        (if max 0 sec < 1 then 1 else max 0 sec), max 0 tps⟩ := rfl

theorem sanitize_total_nonneg (v : PyVal) :
    0 ≤ (sanitize_time_data v).total_time_on_node_ms := by
  cases v <;> simp [sanitize_time_data, timeDataDefaults, sanitizeNumField,
    le_max_left]

theorem sanitize_scroll_nonneg (v : PyVal) :
    0 ≤ (sanitize_time_data v).scroll_events := by
  cases v <;> simp [sanitize_time_data, timeDataDefaults, sanitizeNumField,
    le_max_left]

theorem sanitize_clicks_nonneg (v : PyVal) :
    0 ≤ (sanitize_time_data v).go_deeper_clicks := by
  cases v <;> simp [sanitize_time_data, timeDataDefaults, sanitizeNumField,
    le_max_left]

theorem sanitize_tps_nonneg (v : PyVal) :
    0 ≤ (sanitize_time_data v).time_per_section_ms := by
  cases v <;> simp [sanitize_time_data, timeDataDefaults, sanitizeNumField,
    le_max_left]

theorem sanitize_sections_pos (v : PyVal) :
    1 ≤ (sanitize_time_data v).sections_in_current_node := by
  cases v <;> simp only [sanitize_time_data, timeDataDefaults]
  case vDict es => split <;> omega
  all_goals norm_num

theorem sanitize_nondict (v : PyVal) (h : v.isDict = false) :
    sanitize_time_data v = timeDataDefaults := by
  cases v <;> first | rfl | simp [PyVal.isDict] at h

theorem engagementScore_defaults : engagementScoreOfTd timeDataDefaults = 0 := by
  unfold engagementScoreOfTd timeDataDefaults
  norm_num [round4, roundHalfEven]

/-- `compute_engagement_score` is non-decreasing in `scroll_events`. -/
theorem score_mono_scroll {t scr scr' clk sec tps : ℤ} (h : scr ≤ scr') :
    compute_engagement_score (mkTelemetry t scr clk sec tps) ≤
      compute_engagement_score (mkTelemetry t scr' clk sec tps) := by
  unfold compute_engagement_score
  rw [sanitize_mkTelemetry, sanitize_mkTelemetry]
  unfold engagementScoreOfTd
  apply scoreClamp_mono
  have hs : ((max 0 scr : ℤ) : ℚ) ≤ ((max 0 scr' : ℤ) : ℚ) := by
    exact_mod_cast max_le_max le_rfl h
  gcongr

/-- `compute_engagement_score` is non-decreasing in `go_deeper_clicks`. -/
theorem score_mono_clicks {t scr clk clk' sec tps : ℤ} (h : clk ≤ clk') :
    compute_engagement_score (mkTelemetry t scr clk sec tps) ≤
      compute_engagement_score (mkTelemetry t scr clk' sec tps) := by
  unfold compute_engagement_score
  rw [sanitize_mkTelemetry, sanitize_mkTelemetry]
  unfold engagementScoreOfTd
  apply scoreClamp_mono
  have hs : ((max 0 clk : ℤ) : ℚ) ≤ ((max 0 clk' : ℤ) : ℚ) := by
    exact_mod_cast max_le_max le_rfl h
  gcongr

/-- `compute_engagement_score` is non-decreasing in `time_per_section_ms`. -/
theorem score_mono_tps {t scr clk sec tps tps' : ℤ} (h : tps ≤ tps') :
    compute_engagement_score (mkTelemetry t scr clk sec tps) ≤
      compute_engagement_score (mkTelemetry t scr clk sec tps') := by
  unfold compute_engagement_score
  rw [sanitize_mkTelemetry, sanitize_mkTelemetry]
  unfold engagementScoreOfTd
  apply scoreClamp_mono
  have hs : ((max 0 tps : ℤ) : ℚ) ≤ ((max 0 tps' : ℤ) : ℚ) := by
    exact_mod_cast max_le_max le_rfl h
  dsimp only
  split_ifs <;> first | exact le_rfl | gcongr

theorem compute_engagement_score_bounds (v : PyVal) :
    0 ≤ compute_engagement_score v ∧ compute_engagement_score v ≤ 1 := by
  unfold compute_engagement_score engagementScoreOfTd
  exact round4_mem_unit (le_max_left _ _) (max_le zero_le_one (min_le_left _ _))

/-- The code's scorer computes exactly the specification's weighted
formula on the sanitized record. -/
theorem score_eq_specFormula (v : PyVal) :
    compute_engagement_score v = specScoreFormula (sanitize_time_data v) := by
  have ht : 0 ≤ (sanitize_time_data v).total_time_on_node_ms := sanitize_total_nonneg v
  have hs : 1 ≤ (sanitize_time_data v).sections_in_current_node := sanitize_sections_pos v
  show engagementScoreOfTd (sanitize_time_data v) = specScoreFormula (sanitize_time_data v)
  set td := sanitize_time_data v with htd
  unfold engagementScoreOfTd specScoreFormula
  dsimp only
  rcases eq_or_lt_of_le ht with h0 | hpos
  · rw [← h0]
    norm_num
  · have hS : (0:ℤ) < td.sections_in_current_node := lt_of_lt_of_le one_pos hs
    have hdiv : (0:ℚ) < (td.total_time_on_node_ms : ℚ) / (td.sections_in_current_node : ℚ) :=
      div_pos (by exact_mod_cast hpos) (by exact_mod_cast hS)
    rw [if_pos ⟨hpos, hS⟩, if_pos hdiv, if_neg]
    push_neg
    exact ⟨hpos.ne', hdiv.ne'⟩

/-- The high-engagement scenario telemetry scores exactly 1. -/
theorem scenario_high_score :
    compute_engagement_score (mkTelemetry 60000 12 2 4 15000) = 1 := by
  show engagementScoreOfTd ⟨"", 60000, 12, 2, 4, 15000⟩ = 1
  unfold engagementScoreOfTd
  norm_num [round4, roundHalfEven, min_def, max_def]

/-! ### Claim C2 -/

/-- C2 counterexample: the engagement score is NOT non-decreasing in
`total_time_ms` with the other inputs held fixed — raising the total time
from 100000 ms to 200000 ms (scrolls, clicks, sections and per-section
time unchanged) lowers the score from 0.5 to 0.4, because the variance
factor divides by the total time. -/
theorem C2_counterexample_time_not_monotone :
    compute_engagement_score (mkTelemetry 100000 0 0 1 100000) = 1/2 ∧
    compute_engagement_score (mkTelemetry 200000 0 0 1 100000) = 2/5 ∧
    compute_engagement_score (mkTelemetry 200000 0 0 1 100000) <
      compute_engagement_score (mkTelemetry 100000 0 0 1 100000) := by
  have h1 : compute_engagement_score (mkTelemetry 100000 0 0 1 100000) = 1/2 := by
    show engagementScoreOfTd ⟨"", 100000, 0, 0, 1, 100000⟩ = 1/2
    unfold engagementScoreOfTd
    norm_num [round4, roundHalfEven, min_def, max_def]
  have h2 : compute_engagement_score (mkTelemetry 200000 0 0 1 100000) = 2/5 := by
    show engagementScoreOfTd ⟨"", 200000, 0, 0, 1, 100000⟩ = 2/5
    unfold engagementScoreOfTd
    norm_num [round4, roundHalfEven, min_def, max_def]
  refine ⟨h1, h2, ?_⟩
  rw [h1, h2]
  norm_num

/-- C2 (amended): for every input the engagement score lies in `[0, 1]`,
and on well-typed telemetry the score is non-decreasing in each of
`scroll_events`, `deepen_clicks` and `time_per_section_ms` when the other
raw inputs are held fixed.  (Monotonicity in the fourth input,
`total_time_ms`, fails: see the counterexample.) -/
theorem C2_score_bounds_and_partial_monotonicity :
    (∀ v : PyVal, 0 ≤ compute_engagement_score v ∧ compute_engagement_score v ≤ 1) ∧
    (∀ t scr scr' clk sec tps : ℤ, scr ≤ scr' →
      compute_engagement_score (mkTelemetry t scr clk sec tps) ≤
        compute_engagement_score (mkTelemetry t scr' clk sec tps)) ∧
    (∀ t scr clk clk' sec tps : ℤ, clk ≤ clk' →
      compute_engagement_score (mkTelemetry t scr clk sec tps) ≤
        compute_engagement_score (mkTelemetry t scr clk' sec tps)) ∧
    (∀ t scr clk sec tps tps' : ℤ, tps ≤ tps' →
      compute_engagement_score (mkTelemetry t scr clk sec tps) ≤
        compute_engagement_score (mkTelemetry t scr clk sec tps')) :=
  ⟨compute_engagement_score_bounds,
   fun _ _ _ _ _ _ h => score_mono_scroll h,
   fun _ _ _ _ _ _ h => score_mono_clicks h,
   fun _ _ _ _ _ _ h => score_mono_tps h⟩

/-- Witness for C2 (amended) at concrete telemetry. -/
theorem C2_score_bounds_and_partial_monotonicity_witness :
    (0 ≤ compute_engagement_score (PyVal.vStr "junk") ∧
      compute_engagement_score (PyVal.vStr "junk") ≤ 1) ∧
    compute_engagement_score (mkTelemetry 10000 2 1 2 1000) ≤
      compute_engagement_score (mkTelemetry 10000 5 1 2 1000) ∧
    compute_engagement_score (mkTelemetry 10000 2 1 2 1000) ≤
      compute_engagement_score (mkTelemetry 10000 2 3 2 1000) ∧
    compute_engagement_score (mkTelemetry 10000 2 1 2 1000) ≤
      compute_engagement_score (mkTelemetry 10000 2 1 2 4000) :=
  ⟨C2_score_bounds_and_partial_monotonicity.1 (PyVal.vStr "junk"),
   C2_score_bounds_and_partial_monotonicity.2.1 10000 2 5 1 2 1000 (by norm_num),
   C2_score_bounds_and_partial_monotonicity.2.2.1 10000 2 1 3 2 1000 (by norm_num),
   C2_score_bounds_and_partial_monotonicity.2.2.2 10000 2 1 2 1000 4000 (by norm_num)⟩

/-! ### Claim C4 -/

/-- C4: `select_strategy` is the pure threshold map — `score ≥ 0.65` yields
"deeper", `0.35 ≤ score < 0.65` yields "branch", `score < 0.35` yields
"pivot" — and the five boundary examples evaluate as the specification
states. -/
theorem C4_select_strategy_threshold_map (s : ℚ) :
    (65/100 ≤ s → select_strategy s = "deeper") ∧
    (35/100 ≤ s ∧ s < 65/100 → select_strategy s = "branch") ∧
    (s < 35/100 → select_strategy s = "pivot") ∧
    select_strategy (65/100) = "deeper" ∧
    select_strategy (649999/1000000) = "branch" ∧
    select_strategy (35/100) = "branch" ∧
    select_strategy (349999/1000000) = "pivot" ∧
    select_strategy 0 = "pivot" := by
  refine ⟨?_, ?_, ?_, ?_, ?_, ?_, ?_, ?_⟩
  · intro h; unfold select_strategy; rw [if_pos h]
  · rintro ⟨h1, h2⟩; unfold select_strategy
    rw [if_neg (by linarith), if_pos h1]
  · intro h; unfold select_strategy
    rw [if_neg (by linarith), if_neg (by linarith)]
  all_goals norm_num [select_strategy]

/-- Witness for C4: the three threshold implications applied at 0.7, 0.5
and 0.2. -/
theorem C4_select_strategy_threshold_map_witness :
    select_strategy (7/10) = "deeper" ∧ select_strategy (5/10) = "branch" ∧
    select_strategy (2/10) = "pivot" :=
  ⟨(C4_select_strategy_threshold_map (7/10)).1 (by norm_num),
   (C4_select_strategy_threshold_map (5/10)).2.1 (by norm_num),
   (C4_select_strategy_threshold_map (2/10)).2.2.1 (by norm_num)⟩

/-! ### Claim C5 -/

/-- C5: for every input, `compute_engagement_score` equals the
specification's weighted formula (0.30·time + 0.20·scroll + 0.30·click +
0.20·variance on the sanitized input, variance 0 when the total time or
the divisor is zero, clamped to [0,1], rounded to 4 decimals); it is a
pure function (deterministic by construction); and the scenario telemetry
`{total_time_ms: 60000, scroll_events: 12, deepen_clicks: 2, sections: 4,
time_per_section_ms: 15000}` scores exactly 1.0, which maps to strategy
"deeper". -/
theorem C5_score_formula_refinement_and_scenario :
    (∀ v : PyVal, compute_engagement_score v = specScoreFormula (sanitize_time_data v)) ∧
    compute_engagement_score (mkTelemetry 60000 12 2 4 15000) = 1 ∧
    select_strategy (compute_engagement_score (mkTelemetry 60000 12 2 4 15000)) = "deeper" := by
  refine ⟨score_eq_specFormula, scenario_high_score, ?_⟩
  rw [scenario_high_score]
  norm_num [select_strategy]

/-! ### Claim C6 -/

/-- C6 counterexample: a wrong-typed numeric field is NOT always normalized
to its default — the string `"7"` in `scroll_events` is coerced by
`int("7")` to 7 (the default is 0), and the resulting score is 0.14, not
0.0. -/
theorem C6_counterexample_numeric_string_coerced :
    (sanitize_time_data (PyVal.vDict [("scroll_events", PyVal.vStr "7")])).scroll_events = 7 ∧
    timeDataDefaults.scroll_events = 0 ∧
    compute_engagement_score (PyVal.vDict [("scroll_events", PyVal.vStr "7")]) = 7/50 := by
  refine ⟨rfl, rfl, ?_⟩
  show engagementScoreOfTd ⟨"", 0, 7, 0, 1, 0⟩ = 7/50
  unfold engagementScoreOfTd
  norm_num [round4, roundHalfEven, min_def, max_def]

/-- C6 (amended): the scorer never fails (it is a total function); non-dict
or absent input is replaced by the defaults and scores exactly 0.0; missing
keys take their defaults; `None`-valued, unparseable wrong-typed fields
(non-numeric strings, lists, dicts) take their defaults, while values
`int()` accepts (ints, booleans, floats, numeric strings) are coerced;
negatives clamp to 0; `sections_in_node < 1` is forced to 1; and every
sanitized record has non-negative numeric fields with at least one
section. -/
theorem C6_sanitization_and_zero_default :
    (∀ v : PyVal, v.isDict = false →
      sanitize_time_data v = timeDataDefaults ∧ compute_engagement_score v = 0) ∧
    sanitize_time_data (PyVal.vDict []) = timeDataDefaults ∧
    sanitize_time_data (PyVal.vDict
      [("total_time_on_node_ms", PyVal.vStr "not a number"),
       ("scroll_events", PyVal.vList []),
       ("go_deeper_clicks", PyVal.vNone),
       ("sections_in_current_node", PyVal.vInt 0),
       ("time_per_section_ms", PyVal.vInt (-5))]) = timeDataDefaults ∧
    (∀ t scr clk sec tps : ℤ,
      sanitize_time_data (mkTelemetry t scr clk sec tps) =
        ⟨"", max 0 t, max 0 scr, max 0 clk,
          (if max 0 sec < 1 then 1 else max 0 sec), max 0 tps⟩) ∧
    (∀ v : PyVal, 0 ≤ (sanitize_time_data v).total_time_on_node_ms ∧
      0 ≤ (sanitize_time_data v).scroll_events ∧
      0 ≤ (sanitize_time_data v).go_deeper_clicks ∧
      0 ≤ (sanitize_time_data v).time_per_section_ms ∧
      1 ≤ (sanitize_time_data v).sections_in_current_node) := by
  refine ⟨?_, rfl, rfl, sanitize_mkTelemetry, ?_⟩
  · intro v h
    have hd := sanitize_nondict v h
    refine ⟨hd, ?_⟩
    show engagementScoreOfTd (sanitize_time_data v) = 0
    rw [hd]
    exact engagementScore_defaults
  · intro v
    exact ⟨sanitize_total_nonneg v, sanitize_scroll_nonneg v,
      sanitize_clicks_nonneg v, sanitize_tps_nonneg v, sanitize_sections_pos v⟩

/-- Witness for C6 (amended) at the concrete non-dict input `None`. -/
theorem C6_sanitization_and_zero_default_witness :
    sanitize_time_data PyVal.vNone = timeDataDefaults ∧
    compute_engagement_score PyVal.vNone = 0 :=
  C6_sanitization_and_zero_default.1 PyVal.vNone rfl

/-! ### Dispatcher lemmas (claims C7 and C10) -/

theorem isPrefixOf_map_toLower {p l : List Char} (hp : p.isPrefixOf l = true)
    (hfix : p.map Char.toLower = p) :
    p.isPrefixOf (l.map Char.toLower) = true := by
  rw [List.isPrefixOf_iff_prefix] at hp ⊢
  obtain ⟨t, rfl⟩ := hp
  rw [List.map_append, hfix]
  exact List.prefix_append _ _

theorem containsSublist_map_toLower {p u : List Char}
    (hfix : p.map Char.toLower = p) (h : containsSublist p u = true) :
    containsSublist p (u.map Char.toLower) = true := by
  induction u with
  | nil => simpa [containsSublist] using h
  | cons c cs ih =>
    rw [containsSublist, Bool.or_eq_true] at h
    rcases h with h | h
    · have := isPrefixOf_map_toLower h hfix
      rw [List.map_cons] at this ⊢
      rw [containsSublist, Bool.or_eq_true]
      exact Or.inl this
    · rw [List.map_cons, containsSublist, Bool.or_eq_true]
      exact Or.inr (ih h)

theorem placeholder_lower_fixed :
    ("placeholder".toList).map Char.toLower = "placeholder".toList := by decide

/-- A URL containing the marker still contains it after `lower()`. -/
theorem containsSubstring_lower {u : String}
    (h : containsSubstring u "placeholder" = true) :
    containsSubstring (strLower u) "placeholder" = true := by
  have h2 : containsSublist ("placeholder".toList) u.toList = true := h
  show containsSublist ("placeholder".toList) (u.toList.map Char.toLower) = true
  exact containsSublist_map_toLower placeholder_lower_fixed h2

/-- A raised collaborator exception is caught: the request resolves to
absent. -/
theorem resolve_media_absorbs_exception
    {entries : List (String × PyVal)} {topic : String} {c : ApiClients} {e : PyErr}
    (h : dispatchMedia c topic (pyDictGetD entries "type" (.vStr "unsplash"))
      (pyDictGetD entries "query" (.vStr topic))
      (pyDictGetD entries "top_text" .vNone)
      (pyDictGetD entries "bottom_text" .vNone) = .error e) :
    _resolve_media (.vDict entries) topic c = .ok .vNone := by
  unfold _resolve_media
  by_cases hne : entries.isEmpty
  · simp [pyTruthy, hne]
  · simp [pyTruthy, PyVal.isDict, hne, h]

/-- A dict result whose URL contains the placeholder marker is
discarded. -/
theorem resolve_media_rejects_placeholder
    {entries res : List (String × PyVal)} {topic : String} {c : ApiClients} {url : String}
    (hd : dispatchMedia c topic (pyDictGetD entries "type" (.vStr "unsplash"))
      (pyDictGetD entries "query" (.vStr topic))
      (pyDictGetD entries "top_text" .vNone)
      (pyDictGetD entries "bottom_text" .vNone) = .ok (.vDict res))
    (hu : pyDictGetD res "url" (.vStr "") = .vStr url)
    (hp : containsSubstring url "placeholder" = true) :
    _resolve_media (.vDict entries) topic c = .ok .vNone := by
  unfold _resolve_media
  by_cases hne : entries.isEmpty
  · simp [pyTruthy, hne]
  · by_cases hres : res.isEmpty
    · exfalso
      have hnil : res = [] := by simp [List.isEmpty_iff] at hres; exact hres
      subst hnil
      simp [pyDictGetD] at hu
      rw [← hu] at hp
      simp [containsSubstring, containsSublist] at hp
    · simp [pyTruthy, PyVal.isDict, hne, hres, hd, hu, containsSubstring_lower hp]

/-- A group whose media request resolves to absent emits no media block. -/
theorem buildBlocksOne_no_media_of_resolve_none
    {c : ApiClients} {topic : String} {uid : ℕ → String}
    {entries : List (String × PyVal)} {k : ℕ} {bs : List Block} {k' : ℕ}
    (hres : _resolve_media (pyDictGetD entries "media_request" .vNone) topic c = .ok .vNone)
    (hb : buildBlocksOne c topic uid (.vDict entries) k = .ok (bs, k')) :
    ∀ b ∈ bs, b.media = none := by
  unfold buildBlocksOne at hb
  simp only [pyAsDict] at hb
  split at hb
  · split at hb
    · exact absurd hb (by simp)
    · rename_i mr hmr
      rw [hres] at hb
      simp only [PyVal.isNone, Bool.not_true, if_false, Bool.false_eq_true] at hb
      split at hb
      · simp only [Except.ok.injEq, Prod.mk.injEq] at hb
        obtain ⟨hbs, -⟩ := hb
        intro b hbmem
        rw [← hbs] at hbmem
        simp at hbmem
        rw [hbmem]
      · simp only [Except.ok.injEq, Prod.mk.injEq] at hb
        obtain ⟨hbs, -⟩ := hb
        intro b hbmem
        rw [← hbs] at hbmem
        simp at hbmem
  · split at hb
    · simp only [Except.ok.injEq, Prod.mk.injEq] at hb
      obtain ⟨hbs, -⟩ := hb
      intro b hbmem
      rw [← hbs] at hbmem
      simp at hbmem
      rw [hbmem]
    · simp only [Except.ok.injEq, Prod.mk.injEq] at hb
      obtain ⟨hbs, -⟩ := hb
      intro b hbmem
      rw [← hbs] at hbmem
      simp at hbmem

/-- A kind not among the seven supported ones falls through the whole
dispatch chain. -/
theorem resolve_media_unknown_kind {entries : List (String × PyVal)}
    {topic : String} {c : ApiClients} {k : String}
    (hk : k ∉ MEDIA_TYPES)
    (ht : pyDictGetD entries "type" (.vStr "unsplash") = .vStr k) :
    _resolve_media (.vDict entries) topic c = .ok .vNone := by
  have hd : dispatchMedia c topic (.vStr k)
      (pyDictGetD entries "query" (.vStr topic))
      (pyDictGetD entries "top_text" .vNone)
      (pyDictGetD entries "bottom_text" .vNone) = .ok .vNone := by
    simp only [MEDIA_TYPES, List.mem_cons, List.not_mem_nil, or_false] at hk
    push_neg at hk
    obtain ⟨h1, h2, h3, h4, h5, h6, h7⟩ := hk
    unfold dispatchMedia
    simp [PyVal.eqStr, h1, h2, h3, h4, h5, h6, h7]
  unfold _resolve_media
  by_cases hne : entries.isEmpty
  · simp [pyTruthy, hne]
  · simp [pyTruthy, PyVal.isDict, hne, ht, hd]

/-- A supported kind whose matching collaborator key is absent resolves to
absent. -/
theorem resolve_media_missing_client {entries : List (String × PyVal)}
    {topic : String} {c : ApiClients} {k : String}
    (ht : pyDictGetD entries "type" (.vStr "unsplash") = .vStr k)
    (hmiss : (k = "unsplash" ∧ c.unsplash = none) ∨
      (k = "wikipedia_image" ∧ c.wikipedia = none) ∨
      (k = "wikimedia" ∧ c.wikimedia = none) ∨
      (k = "reddit" ∧ c.reddit = none) ∨
      (k = "xkcd" ∧ c.xkcd = none) ∨
      (k = "meme" ∧ c.imgflip = none) ∨
      (k = "tweet" ∧ c.twitter = none)) :
    _resolve_media (.vDict entries) topic c = .ok .vNone := by
  have hd : dispatchMedia c topic (.vStr k)
      (pyDictGetD entries "query" (.vStr topic))
      (pyDictGetD entries "top_text" .vNone)
      (pyDictGetD entries "bottom_text" .vNone) = .ok .vNone := by
    unfold dispatchMedia
    rcases hmiss with ⟨rfl, hc⟩ | ⟨rfl, hc⟩ | ⟨rfl, hc⟩ | ⟨rfl, hc⟩ |
      ⟨rfl, hc⟩ | ⟨rfl, hc⟩ | ⟨rfl, hc⟩ <;> simp [PyVal.eqStr, hc]
  unfold _resolve_media
  by_cases hne : entries.isEmpty
  · simp [pyTruthy, hne]
  · simp [pyTruthy, PyVal.isDict, hne, ht, hd]

/-! ### Claim C7 -/

/-- C7: for every media request, (a) a collaborator-call exception is
caught at the dispatcher and converted to an absent result — it never
propagates; (b) a collaborator-returned dict result whose URL contains the
placeholder marker substring is discarded (absent); and (c) a group whose
media request resolved to absent emits no media block. -/
theorem C7_placeholder_discard_and_exception_safety :
    (∀ (entries : List (String × PyVal)) (topic : String) (c : ApiClients)
      (e : PyErr),
      dispatchMedia c topic (pyDictGetD entries "type" (.vStr "unsplash"))
        (pyDictGetD entries "query" (.vStr topic))
        (pyDictGetD entries "top_text" .vNone)
        (pyDictGetD entries "bottom_text" .vNone) = .error e →
      _resolve_media (.vDict entries) topic c = .ok .vNone) ∧
    (∀ (entries res : List (String × PyVal)) (topic : String)
      (c : ApiClients) (url : String),
      dispatchMedia c topic (pyDictGetD entries "type" (.vStr "unsplash"))
        (pyDictGetD entries "query" (.vStr topic))
        (pyDictGetD entries "top_text" .vNone)
        (pyDictGetD entries "bottom_text" .vNone) = .ok (.vDict res) →
      pyDictGetD res "url" (.vStr "") = .vStr url →
      containsSubstring url "placeholder" = true →
      _resolve_media (.vDict entries) topic c = .ok .vNone) ∧
    (∀ (c : ApiClients) (topic : String) (uid : ℕ → String)
      (entries : List (String × PyVal)) (k : ℕ) (bs : List Block) (k' : ℕ),
      _resolve_media (pyDictGetD entries "media_request" .vNone) topic c = .ok .vNone →
      buildBlocksOne c topic uid (.vDict entries) k = .ok (bs, k') →
      ∀ b ∈ bs, b.media = none) :=
  ⟨fun _ _ _ _ h => resolve_media_absorbs_exception h,
   fun _ _ _ _ _ hd hu hp => resolve_media_rejects_placeholder hd hu hp,
   fun _ _ _ _ _ _ _ hres hb => buildBlocksOne_no_media_of_resolve_none hres hb⟩

/-- Witness for C7: a raising photo collaborator yields absent; a
placeholder URL is discarded; the owning group keeps only its text
block. -/
theorem C7_placeholder_discard_and_exception_safety_witness :
    _resolve_media (.vDict [("type", .vStr "unsplash")]) "Topic"
      raisingUnsplashClients = .ok .vNone ∧
    _resolve_media (.vDict [("type", .vStr "unsplash")]) "Topic"
      placeholderUnsplashClients = .ok .vNone ∧
    (∀ b ∈ ([⟨"text-u1", .vStr "text", .vStr "hi", "grp-u0",
        .vStr "explanation", none⟩] : List Block), b.media = none) :=
  ⟨C7_placeholder_discard_and_exception_safety.1 [("type", .vStr "unsplash")]
     "Topic" raisingUnsplashClients .typeError rfl,
   C7_placeholder_discard_and_exception_safety.2.1 [("type", .vStr "unsplash")]
     [("url", .vStr "https://img.example/placeholder-1.png"),
      ("source", .vStr "Unsplash")] "Topic" placeholderUnsplashClients
     "https://img.example/placeholder-1.png" rfl rfl (by decide),
   C7_placeholder_discard_and_exception_safety.2.2 placeholderUnsplashClients
     "Topic" seqUid
     [("text", .vStr "hi"), ("media_request", .vDict [("type", .vStr "unsplash")])]
     0 _ 2 rfl rfl⟩

/-! ### Claim C10 -/

/-- C10: a media request whose kind string is not one of the seven
supported kinds resolves to absent without raising; likewise when the
matching collaborator key is absent from the map; and in either case the
owning group silently emits no media block.  Nothing rejects or reports
the unknown kind. -/
theorem C10_unknown_kind_and_missing_collaborator_silent :
    (∀ (entries : List (String × PyVal)) (topic : String) (c : ApiClients)
      (k : String), k ∉ MEDIA_TYPES →
      pyDictGetD entries "type" (.vStr "unsplash") = .vStr k →
      _resolve_media (.vDict entries) topic c = .ok .vNone) ∧
    (∀ (entries : List (String × PyVal)) (topic : String) (c : ApiClients)
      (k : String),
      pyDictGetD entries "type" (.vStr "unsplash") = .vStr k →
      ((k = "unsplash" ∧ c.unsplash = none) ∨
       (k = "wikipedia_image" ∧ c.wikipedia = none) ∨
       (k = "wikimedia" ∧ c.wikimedia = none) ∨
       (k = "reddit" ∧ c.reddit = none) ∨
       (k = "xkcd" ∧ c.xkcd = none) ∨
       (k = "meme" ∧ c.imgflip = none) ∨
       (k = "tweet" ∧ c.twitter = none)) →
      _resolve_media (.vDict entries) topic c = .ok .vNone) ∧
    (∀ (c : ApiClients) (topic : String) (uid : ℕ → String)
      (entries : List (String × PyVal)) (k : ℕ) (bs : List Block) (k' : ℕ),
      _resolve_media (pyDictGetD entries "media_request" .vNone) topic c = .ok .vNone →
      buildBlocksOne c topic uid (.vDict entries) k = .ok (bs, k') →
      ∀ b ∈ bs, b.media = none) :=
  ⟨fun _ _ _ _ hk ht => resolve_media_unknown_kind hk ht,
   fun _ _ _ _ ht hm => resolve_media_missing_client ht hm,
   fun _ _ _ _ _ _ _ hres hb => buildBlocksOne_no_media_of_resolve_none hres hb⟩

/-- Witness for C10: an unknown kind `"gif"` and a missing reddit
collaborator both resolve to absent, and a group with an unknown-kind
request emits only its text block. -/
theorem C10_unknown_kind_and_missing_collaborator_silent_witness :
    _resolve_media (.vDict [("type", .vStr "gif"), ("query", .vStr "cats")])
      "Topic" raisingUnsplashClients = .ok .vNone ∧
    _resolve_media (.vDict [("type", .vStr "reddit")]) "Topic" noApiClients = .ok .vNone ∧
    (∀ b ∈ ([⟨"text-u1", .vStr "text", .vStr "hi", "grp-u0",
        .vStr "explanation", none⟩] : List Block), b.media = none) :=
  ⟨C10_unknown_kind_and_missing_collaborator_silent.1
     [("type", .vStr "gif"), ("query", .vStr "cats")] "Topic"
     raisingUnsplashClients "gif" (by decide) rfl,
   C10_unknown_kind_and_missing_collaborator_silent.2.1
     [("type", .vStr "reddit")] "Topic" noApiClients "reddit" rfl
     (Or.inr (Or.inr (Or.inr (Or.inl ⟨rfl, rfl⟩)))),
   C10_unknown_kind_and_missing_collaborator_silent.2.2 noApiClients "Topic"
     seqUid
     [("text", .vStr "hi"), ("media_request", .vDict [("type", .vStr "gif")])]
     0 _ 2 rfl rfl⟩

/-! ### Claim C8 -/

/-- C8: when the orchestrator client is missing or unavailable, or its
reply is not structurally a dict, or the dict lacks the `groups` key, the
planning step returns `none` (nothing usable), and `generate_content_blocks`
then returns the explicit failure signal `(None, None)` — distinct from an
empty content list. -/
theorem C8_orchestration_failure_signal :
    (∀ (tl st : String) (vn : List String) (lp : Option String) (es : ℚ)
      (aa : List (String × Bool)),
      generate_content_with_claude tl st vn lp es aa none = none) ∧
    (∀ (tl st : String) (vn : List String) (lp : Option String) (es : ℚ)
      (aa : List (String × Bool)) (cl : ClaudeClient), cl.is_available = false →
      generate_content_with_claude tl st vn lp es aa (some cl) = none) ∧
    (∀ (tl st : String) (vn : List String) (lp : Option String) (es : ℚ)
      (aa : List (String × Bool)) (r : PyVal), r.isDict = false →
      generate_content_with_claude tl st vn lp es aa (some ⟨true, fun _ _ => r⟩) = none) ∧
    (∀ (tl st : String) (vn : List String) (lp : Option String) (es : ℚ)
      (aa : List (String × Bool)) (body : List (String × PyVal)),
      pyHasKey body "groups" = false →
      generate_content_with_claude tl st vn lp es aa
        (some ⟨true, fun _ _ => .vDict body⟩) = none) ∧
    (∀ (tid st : String) (vn : List String) (lp : Option String) (es : ℚ)
      (c : ApiClients) (uid : ℕ → String),
      generate_content_with_claude (pyTitle (replaceDashWithSpace tid)) st vn lp es
        (get_available_apis c) c.claude = none →
      generate_content_blocks tid st vn lp es c uid = .ok (none, none)) := by
  refine ⟨?_, ?_, ?_, ?_, ?_⟩
  · intro tl st vn lp es aa
    rfl
  · intro tl st vn lp es aa cl h
    unfold generate_content_with_claude
    simp [h]
  · intro tl st vn lp es aa r h
    unfold generate_content_with_claude
    simp [h]
  · intro tl st vn lp es aa body h
    unfold generate_content_with_claude
    simp [pyValHasKey, h]
  · intro tid st vn lp es c uid h
    unfold generate_content_blocks
    dsimp only
    rw [h]

/-- Witness for C8: missing client, unavailable client, a string reply, a
groups-less dict reply, and the resulting `(None, None)` from
`generate_content_blocks` with no orchestrator. -/
theorem C8_orchestration_failure_signal_witness :
    generate_content_with_claude "Black Holes" "deeper" [] none (7/10) [] none = none ∧
    generate_content_with_claude "Black Holes" "deeper" [] none (7/10) []
      (some ⟨false, fun _ _ => .vDict [("groups", .vList [])]⟩) = none ∧
    generate_content_with_claude "Black Holes" "deeper" [] none (7/10) []
      (some ⟨true, fun _ _ => .vStr "not json"⟩) = none ∧
    generate_content_with_claude "Black Holes" "deeper" [] none (7/10) []
      (some ⟨true, fun _ _ => .vDict [("next_nodes", .vList [])]⟩) = none ∧
    generate_content_blocks "black-holes" "deeper" [] none (7/10) noApiClients
      seqUid = .ok (none, none) :=
  ⟨C8_orchestration_failure_signal.1 "Black Holes" "deeper" [] none (7/10) [],
   C8_orchestration_failure_signal.2.1 "Black Holes" "deeper" [] none (7/10) []
     ⟨false, fun _ _ => .vDict [("groups", .vList [])]⟩ rfl,
   C8_orchestration_failure_signal.2.2.1 "Black Holes" "deeper" [] none (7/10) []
     (.vStr "not json") rfl,
   C8_orchestration_failure_signal.2.2.2.1 "Black Holes" "deeper" [] none (7/10) []
     [("next_nodes", .vList [])] rfl,
   C8_orchestration_failure_signal.2.2.2.2 "black-holes" "deeper" [] none (7/10)
     noApiClients seqUid rfl⟩

/-! ### Next-node loop lemmas (claims C1 and C3) -/

/-- A node appended from a dict-shaped candidate has an id outside the
visited set. -/
theorem buildNextNodeOne_dict_not_visited {visited : List String}
    {es : List (String × PyVal)} {nd : NextNode}
    (h : buildNextNodeOne visited (.vDict es) = .ok (some nd)) :
    nd.id ∉ visited := by
  simp only [buildNextNodeOne] at h
  split at h
  · exact absurd h (by simp)
  · rename_i nid hnid
    split at h
    · split at h
      · exact absurd h (by simp)
      · exact absurd h (by simp)
      · rename_i hmem
        split at h
        · rename_i nidS hs
          simp only [Except.ok.injEq, Option.some.injEq] at h
          rw [← h]
          show nidS ∉ visited
          simp only [pyStrSetMem, Except.ok.injEq] at hmem
          simpa using hmem
        · exact absurd h (by simp)
    · exact absurd h (by simp)

/-- Over a plan whose candidates are all dict-shaped, the filtered
next-node list never contains a visited id. -/
theorem buildNextNodes_dict_not_visited {visited : List String} :
    ∀ (cands : List PyVal) (nodes : List NextNode),
      (∀ x ∈ cands, x.isDict = true) →
      buildNextNodes visited cands = .ok nodes →
      ∀ nd ∈ nodes, nd.id ∉ visited := by
  intro cands
  induction cands with
  | nil =>
    intro nodes _ h nd hnd
    simp only [buildNextNodes, Except.ok.injEq] at h
    rw [← h] at hnd
    simp at hnd
  | cons x rest ih =>
    intro nodes hdict h nd hnd
    simp only [buildNextNodes] at h
    split at h
    · exact absurd h (by simp)
    · rename_i mb hmb
      split at h
      · exact absurd h (by simp)
      · rename_i ns hns
        simp only [Except.ok.injEq] at h
        rw [← h] at hnd
        rw [List.mem_append] at hnd
        rcases hnd with hnd | hnd
        · have hx : x.isDict = true := hdict x (by simp)
          cases x with
          | vDict es =>
            cases mb with
            | none => simp at hnd
            | some nd' =>
              simp only [Option.toList, List.mem_singleton] at hnd
              rw [hnd]
              exact buildNextNodeOne_dict_not_visited hmb
          | vNone => simp [PyVal.isDict] at hx
          | vBool b => simp [PyVal.isDict] at hx
          | vInt n => simp [PyVal.isDict] at hx
          | vFloat q => simp [PyVal.isDict] at hx
          | vStr s => simp [PyVal.isDict] at hx
          | vList l => simp [PyVal.isDict] at hx
        · exact ih ns (fun y hy => hdict y (by simp [hy])) hns nd hnd

/-! ### Claim C1 -/

/-- C1 counterexample: `generate_content_blocks` does NOT deduplicate
next-node ids.  A plan whose two candidates share the label "X" yields a
returned list whose ids are `["x", "x"]` — a duplicate. -/
theorem C1_counterexample_duplicate_ids :
    generate_content_blocks "black-holes" "deeper" [] none (7/10)
      (claudeOnlyClients dupLabelPlan) seqUid =
      .ok (some [], some [⟨"x", "X", .vStr ""⟩, ⟨"x", "X", .vStr ""⟩]) ∧
    ([⟨"x", "X", .vStr ""⟩, ⟨"x", "X", .vStr ""⟩] : List NextNode).map NextNode.id =
      ["x", "x"] ∧
    ¬ (["x", "x"] : List String).Nodup :=
  ⟨rfl, rfl, by decide⟩

/-- C1 (amended): next-node candidates that are dicts are filtered against
the caller's visited set — every returned node built from a dict candidate
has an id outside that set — but duplicate ids are NOT removed, bare-string
candidates are tested by their raw string rather than the id of the node
they produce, and the synthesized fallback ids are not checked against the
visited set. -/
theorem C1_dict_candidates_visited_filter :
    ∀ (visited : List String) (cands : List PyVal) (nodes : List NextNode),
      (∀ x ∈ cands, x.isDict = true) →
      buildNextNodes visited cands = .ok nodes →
      ∀ nd ∈ nodes, nd.id ∉ visited :=
  fun _ cands nodes h1 h2 => buildNextNodes_dict_not_visited cands nodes h1 h2

/-- Witness for C1 (amended): one visited and one fresh dict candidate. -/
theorem C1_dict_candidates_visited_filter_witness :
    (∀ x ∈ ([.vDict [("label", .vStr "Event Horizon")],
             .vDict [("label", .vStr "Hawking Radiation")]] : List PyVal),
       x.isDict = true) ∧
    buildNextNodes ["event-horizon"]
      [.vDict [("label", .vStr "Event Horizon")],
       .vDict [("label", .vStr "Hawking Radiation")]] =
      .ok [⟨"hawking-radiation", "Hawking Radiation", .vStr ""⟩] ∧
    (∀ nd ∈ ([⟨"hawking-radiation", "Hawking Radiation", .vStr ""⟩] : List NextNode),
       nd.id ∉ ["event-horizon"]) :=
  ⟨by decide,
   rfl,
   C1_dict_candidates_visited_filter ["event-horizon"]
     [.vDict [("label", .vStr "Event Horizon")],
      .vDict [("label", .vStr "Hawking Radiation")]]
     [⟨"hawking-radiation", "Hawking Radiation", .vStr ""⟩]
     (by decide)
     rfl⟩

/-! ### Claim C3 -/

/-- C3: whenever the accepted plan's filtered next-node list comes out
empty (nothing usable or everything visited) and the group loop succeeds,
`generate_content_blocks` returns exactly two fallback nodes synthesized
from the topic label via `make_node` (modelled from the spec): the
"&lt;topic&gt; Deep Dive" node and the "Beyond &lt;topic&gt;" node. -/
theorem C3_empty_filtered_list_yields_two_fallback_nodes :
    ∀ (topic_id strategy : String) (visited : List String) (lp : Option String)
      (escore : ℚ) (c : ApiClients) (uid : ℕ → String) (plan : PyVal)
      (groups claude_next : List PyVal) (blocks : List Block) (k : ℕ),
      c.claude = some ⟨true, fun _ _ => plan⟩ →
      pyTruthy plan = true → plan.isDict = true → pyValHasKey plan "groups" = true →
      pyIter (pyValGetD plan "groups" (.vList [])) = .ok groups →
      buildBlocks c (pyTitle (replaceDashWithSpace topic_id)) uid groups 0 = .ok (blocks, k) →
      pyIter (pyValGetD plan "next_nodes" (.vList [])) = .ok claude_next →
      buildNextNodes visited claude_next = .ok [] →
      generate_content_blocks topic_id strategy visited lp escore c uid =
        .ok (some blocks, some
          [make_node (pyTitle (replaceDashWithSpace topic_id) ++ " Deep Dive")
             ("Explore " ++ pyTitle (replaceDashWithSpace topic_id) ++ " in greater detail"),
           make_node ("Beyond " ++ pyTitle (replaceDashWithSpace topic_id))
             ("Topics related to " ++ pyTitle (replaceDashWithSpace topic_id))]) ∧
      ([make_node (pyTitle (replaceDashWithSpace topic_id) ++ " Deep Dive")
          ("Explore " ++ pyTitle (replaceDashWithSpace topic_id) ++ " in greater detail"),
        make_node ("Beyond " ++ pyTitle (replaceDashWithSpace topic_id))
          ("Topics related to " ++ pyTitle (replaceDashWithSpace topic_id))] : List NextNode).length = 2 := by
  intro topic_id strategy visited lp escore c uid plan groups claude_next blocks k
  intro hcl h2 h3 h4 h5 h6 h7 h8
  have hplan : generate_content_with_claude (pyTitle (replaceDashWithSpace topic_id))
      strategy visited lp escore (get_available_apis c)
      (some ⟨true, fun _ _ => plan⟩) = some plan := by
    unfold generate_content_with_claude
    simp [h2, h3, h4]
  refine ⟨?_, rfl⟩
  unfold generate_content_blocks
  dsimp only
  rw [hcl, hplan]
  dsimp only
  rw [h5]
  dsimp only
  rw [h6]
  dsimp only
  rw [h7]
  dsimp only
  rw [h8]
  rfl

/-- Witness for C3: the topic "black-holes" with a plan that yields no
next-node candidate produces exactly the two "Black Holes" fallback
nodes. -/
theorem C3_empty_filtered_list_yields_two_fallback_nodes_witness :
    generate_content_blocks "black-holes" "deeper" [] none (7/10)
      (claudeOnlyClients emptyNextPlan) seqUid =
      .ok (some [], some
        [make_node "Black Holes Deep Dive" "Explore Black Holes in greater detail",
         make_node "Beyond Black Holes" "Topics related to Black Holes"]) ∧
    ([make_node "Black Holes Deep Dive" "Explore Black Holes in greater detail",
      make_node "Beyond Black Holes" "Topics related to Black Holes"] : List NextNode).length = 2 :=
  C3_empty_filtered_list_yields_two_fallback_nodes "black-holes" "deeper" [] none (7/10)
    (claudeOnlyClients emptyNextPlan) seqUid emptyNextPlan [] [] [] 0
    rfl rfl rfl rfl rfl rfl rfl rfl

/-! ### Media variety tracker lemmas (claim C9) -/

theorem popAvoid_of_head_ne {types : List String} {last : Option String}
    {x : String} {t : List String} {fuel : ℕ} (h : some x ≠ last) :
    popAvoid types last (x :: t) fuel = (x, t) := by
  cases fuel with
  | zero => rfl
  | succ f => simp [popAvoid, h]

/-- The requeue-and-redraw loop only rotates the deque: the drawn kind plus
the remaining deque is a permutation of the original deque. -/
theorem popAvoid_perm (types : List String) (last : Option String) :
    ∀ (fuel : ℕ) (q : List String), q ≠ [] →
      q.Perm ((popAvoid types last q fuel).1 :: (popAvoid types last q fuel).2) := by
  intro fuel
  induction fuel with
  | zero =>
    intro q hq
    match q with
    | x :: t => simp [popAvoid]
  | succ f ih =>
    intro q hq
    match q with
    | x :: t =>
      by_cases hc : some x = last ∧ 1 < types.length
      · have hrot : (x :: t).Perm (t ++ [x]) := (List.perm_append_singleton x t).symm
        have h1 : (t ++ [x]) ≠ [] := by simp
        have h2 := ih (t ++ [x]) h1
        have hred : popAvoid types last (x :: t) (f + 1) = popAvoid types last (t ++ [x]) f := by
          simp [popAvoid, hc]
        rw [hred]
        exact hrot.trans h2
      · have hred : popAvoid types last (x :: t) (f + 1) = (x, t) := by
          simp only [popAvoid, if_neg hc]
        rw [hred]

theorem next_type_types (sh : List String → List String) (s : TrackerState) :
    (next_type sh s).2.types = s.types := rfl

theorem next_type_last (sh : List String → List String) (s : TrackerState) :
    (next_type sh s).2.last = some (next_type sh s).1 := rfl

theorem next_type_perm_nonempty (sh : List String → List String) {s : TrackerState}
    (h : ¬ s.queue.isEmpty = true) :
    s.queue.Perm ((next_type sh s).1 :: (next_type sh s).2.queue) := by
  have hne : s.queue ≠ [] := by
    intro hc; rw [hc] at h; simp at h
  unfold next_type
  simp only [h, if_false, Bool.false_eq_true]
  exact popAvoid_perm s.types s.last s.types.length s.queue hne

theorem next_type_perm_empty (sh : List String → List String) {s : TrackerState}
    (h : s.queue.isEmpty = true) (hne : sh s.types ≠ []) :
    (sh s.types).Perm ((next_type sh s).1 :: (next_type sh s).2.queue) := by
  unfold next_type
  simp only [h, if_true]
  exact popAvoid_perm s.types s.last s.types.length _ hne

theorem runTracker_types : ∀ (n : ℕ) (sh : ℕ → List String → List String)
    (s : TrackerState), ((runTracker sh s n).2).types = s.types := by
  intro n
  induction n with
  | zero => intro sh s; rfl
  | succ m ih =>
    intro sh s
    show ((runTracker (fun i => sh (i + 1)) (next_type (sh 0) s).2 m).2).types = s.types
    rw [ih]
    rfl

theorem runTracker_length : ∀ (n : ℕ) (sh : ℕ → List String → List String)
    (s : TrackerState), ((runTracker sh s n).1).length = n := by
  intro n
  induction n with
  | zero => intro sh s; rfl
  | succ m ih =>
    intro sh s
    show ((next_type (sh 0) s).1 ::
      (runTracker (fun i => sh (i + 1)) (next_type (sh 0) s).2 m).1).length = m + 1
    rw [List.length_cons, ih]

theorem runTracker_add : ∀ (a : ℕ) (sh : ℕ → List String → List String)
    (s : TrackerState) (b : ℕ),
    (runTracker sh s (a + b)).1 =
      (runTracker sh s a).1 ++
        (runTracker (fun i => sh (i + a)) ((runTracker sh s a).2) b).1 := by
  intro a
  induction a with
  | zero =>
    intro sh s b
    simp only [Nat.zero_add, Nat.add_zero]
    rfl
  | succ m ih =>
    intro sh s b
    have hn : m + 1 + b = (m + b) + 1 := by omega
    rw [hn]
    show (next_type (sh 0) s).1 ::
        (runTracker (fun i => sh (i + 1)) (next_type (sh 0) s).2 (m + b)).1 = _
    rw [ih (fun i => sh (i + 1)) (next_type (sh 0) s).2 b]
    rfl

/-- A deque of length `m` is consumed by exactly `m` calls, which emit its
elements (in some order) and leave the deque empty. -/
theorem runTracker_drain : ∀ (m : ℕ) (sh : ℕ → List String → List String)
    (s : TrackerState), s.queue.length = m →
    (runTracker sh s m).1.Perm s.queue ∧ ((runTracker sh s m).2).queue = [] := by
  intro m
  induction m with
  | zero =>
    intro sh s h
    have hq : s.queue = [] := List.length_eq_zero.mp h
    exact ⟨by rw [hq]; exact List.Perm.nil, hq⟩
  | succ m ih =>
    intro sh s h
    have hne : ¬ s.queue.isEmpty = true := by
      intro hc
      rw [List.isEmpty_iff] at hc
      rw [hc] at h
      simp at h
    have hperm := next_type_perm_nonempty (sh 0) hne
    have hlen : ((next_type (sh 0) s).2).queue.length = m := by
      have hl := hperm.length_eq
      simp only [List.length_cons] at hl
      omega
    obtain ⟨ih1, ih2⟩ := ih (fun i => sh (i + 1)) (next_type (sh 0) s).2 hlen
    constructor
    · show ((next_type (sh 0) s).1 ::
        (runTracker (fun i => sh (i + 1)) (next_type (sh 0) s).2 m).1).Perm s.queue
      exact (ih1.cons _).trans hperm.symm
    · exact ih2

/-- From an empty deque, the next `len(types)` calls emit every configured
kind exactly once (a permutation of `types`). -/
theorem runTracker_block : ∀ (sh : ℕ → List String → List String) (s : TrackerState),
    (∀ i l, (sh i l).Perm l) → s.queue = [] → s.types ≠ [] →
    (runTracker sh s s.types.length).1.Perm s.types ∧
    ((runTracker sh s s.types.length).2).queue = [] := by
  intro sh s hsh hq hty
  obtain ⟨n', hn⟩ : ∃ n', s.types.length = n' + 1 := by
    cases hty' : s.types with
    | nil => exact absurd hty' hty
    | cons a t => exact ⟨t.length, by simp [hty']⟩
  rw [hn]
  have hqe : s.queue.isEmpty = true := by rw [hq]; rfl
  have hlensh : (sh 0 s.types).length = s.types.length := (hsh 0 s.types).length_eq
  have hshne : sh 0 s.types ≠ [] := by
    intro hc
    rw [hc] at hlensh
    simp at hlensh
    exact hty (List.length_eq_zero.mp hlensh.symm)
  have hperm := next_type_perm_empty (sh 0) hqe hshne
  have hlen : ((next_type (sh 0) s).2).queue.length = n' := by
    have h1 := hperm.length_eq
    simp only [List.length_cons] at h1
    omega
  obtain ⟨hd1, hd2⟩ := runTracker_drain n' (fun i => sh (i + 1)) (next_type (sh 0) s).2 hlen
  constructor
  · show ((next_type (sh 0) s).1 ::
      (runTracker (fun i => sh (i + 1)) (next_type (sh 0) s).2 n').1).Perm s.types
    exact ((hd1.cons _).trans hperm.symm).trans (hsh 0 s.types)
  · exact hd2

theorem next_type_queue_le (sh : List String → List String) {s : TrackerState}
    (hperm : (sh s.types).Perm s.types) (hty : s.types ≠ [])
    (hql : s.queue.length ≤ s.types.length) :
    ((next_type sh s).2).queue.length + 1 ≤ s.types.length := by
  by_cases hq : s.queue.isEmpty = true
  · have hlensh : (sh s.types).length = s.types.length := hperm.length_eq
    have hshne : sh s.types ≠ [] := by
      intro hc
      rw [hc] at hlensh
      simp at hlensh
      exact hty (List.length_eq_zero.mp hlensh.symm)
    have h := (next_type_perm_empty sh hq hshne).length_eq
    simp only [List.length_cons] at h
    omega
  · have h := (next_type_perm_nonempty sh hq).length_eq
    simp only [List.length_cons] at h
    have hqne : s.queue ≠ [] := by
      intro hc
      rw [← List.isEmpty_iff] at hc
      exact hq hc
    have : 1 ≤ s.queue.length := by
      cases hq2 : s.queue with
      | nil => exact absurd hq2 hqne
      | cons a t => simp
    omega

theorem runTracker_queue_le : ∀ (n : ℕ) (sh : ℕ → List String → List String)
    (s : TrackerState), (∀ i l, (sh i l).Perm l) → s.types ≠ [] →
    s.queue.length ≤ s.types.length →
    ((runTracker sh s n).2).queue.length ≤ s.types.length := by
  intro n
  induction n with
  | zero => intro sh s _ _ h; exact h
  | succ m ih =>
    intro sh s hsh hty hql
    have hstep := next_type_queue_le (sh 0) (hsh 0 s.types) hty hql
    show ((runTracker (fun i => sh (i + 1)) (next_type (sh 0) s).2 m).2).queue.length ≤ _
    have := ih (fun i => sh (i + 1)) (next_type (sh 0) s).2
      (fun i l => hsh (i + 1) l) (by show s.types ≠ []; exact hty)
      (by show ((next_type (sh 0) s).2).queue.length ≤ s.types.length; omega)
    exact this

/-- Core coverage bound: from any state whose deque is no longer than the
kind list, every configured kind appears within the next
`2 × len(types)` calls. -/
theorem runTracker_window : ∀ (sh : ℕ → List String → List String) (s : TrackerState),
    (∀ i l, (sh i l).Perm l) → s.types ≠ [] → s.queue.length ≤ s.types.length →
    ∀ t ∈ s.types, t ∈ (runTracker sh s (2 * s.types.length)).1 := by
  intro sh s hsh hty hql t ht
  have hsplit : 2 * s.types.length =
      (s.queue.length + s.types.length) +
        (2 * s.types.length - (s.queue.length + s.types.length)) := by
    omega
  rw [hsplit, runTracker_add (s.queue.length + s.types.length)]
  apply List.mem_append_left
  rw [runTracker_add s.queue.length]
  apply List.mem_append_right
  obtain ⟨hd1, hd2⟩ := runTracker_drain s.queue.length sh s rfl
  have hty1 : ((runTracker sh s s.queue.length).2).types = s.types :=
    runTracker_types s.queue.length sh s
  have hblock := runTracker_block (fun i => sh (i + s.queue.length))
    ((runTracker sh s s.queue.length).2) (fun i l => hsh (i + s.queue.length) l)
    hd2 (by rw [hty1]; exact hty)
  rw [hty1] at hblock
  exact hblock.1.mem_iff.mpr ht

theorem trackerInit_of_ne {types : List String} (h : types ≠ []) :
    trackerInit (some types) = ⟨types, types, none⟩ := by
  unfold trackerInit
  have : types.isEmpty = false := by
    cases types with
    | nil => exact absurd rfl h
    | cons a t => rfl
  simp [this]

/-- Any window of `2 × len(types)` consecutive calls (starting after `k`
earlier calls) contains every configured kind. -/
theorem runTracker_window_drop : ∀ (k : ℕ) (sh : ℕ → List String → List String)
    (types : List String), (∀ i l, (sh i l).Perm l) → types ≠ [] →
    ∀ t ∈ types,
      t ∈ ((runTracker sh (trackerInit (some types)) (k + 2 * types.length)).1.drop k) := by
  intro k sh types hsh hty t ht
  rw [trackerInit_of_ne hty]
  rw [runTracker_add k]
  have hlk : ((runTracker sh ⟨types, types, none⟩ k).1).length = k :=
    runTracker_length k sh _
  rw [List.drop_left' hlk]
  set sk := (runTracker sh (⟨types, types, none⟩ : TrackerState) k).2 with hsk
  have htyk : sk.types = types := by rw [hsk, runTracker_types]
  have hql : sk.queue.length ≤ sk.types.length := by
    rw [htyk]
    exact runTracker_queue_le k sh ⟨types, types, none⟩ hsh hty le_rfl
  have hw := runTracker_window (fun i => sh (i + k)) sk
    (fun i l => hsh (i + k) l) (by rw [htyk]; exact hty) hql t (by rw [htyk]; exact ht)
  rw [htyk] at hw
  exact hw

/-- For pairwise-distinct kinds (more than one), a call never repeats the
previous draw, and re-establishes the state invariant: the deque stays
duplicate-free and never contains the kind just drawn. -/
theorem next_type_inv {sh : List String → List String} {s : TrackerState}
    (hperm : (sh s.types).Perm s.types) (hnd : s.types.Nodup)
    (hlen : 1 < s.types.length) (hqnd : s.queue.Nodup)
    (hql : ∀ x ∈ s.queue, some x ≠ s.last) :
    some (next_type sh s).1 ≠ s.last ∧
    ((next_type sh s).2).queue.Nodup ∧
    (∀ x ∈ ((next_type sh s).2).queue, some x ≠ some (next_type sh s).1) := by
  have hfuel : ∃ f, s.types.length = f + 1 := by
    cases hc : s.types with
    | nil => rw [hc] at hlen; simp at hlen
    | cons a l => exact ⟨l.length, by simp [hc]⟩
  unfold next_type
  by_cases hq : s.queue.isEmpty = true
  · simp only [hq, if_true]
    have hqnd2 : (sh s.types).Nodup := hperm.nodup_iff.mpr hnd
    have hlen2 : 1 < (sh s.types).length := by rw [hperm.length_eq]; exact hlen
    obtain ⟨x, t, hxt⟩ : ∃ x t, sh s.types = x :: t := by
      cases hc : sh s.types with
      | nil => rw [hc] at hlen2; simp at hlen2
      | cons a l => exact ⟨a, l, rfl⟩
    rw [hxt]
    by_cases hx : some x = s.last
    · obtain ⟨y, t', hyt⟩ : ∃ y t', t = y :: t' := by
        cases hc : t with
        | nil => rw [hxt, hc] at hlen2; simp at hlen2
        | cons a l => exact ⟨a, l, rfl⟩
      have hxny : x ≠ y := by
        rw [hxt, hyt] at hqnd2
        intro hcon
        rw [hcon] at hqnd2
        simp at hqnd2
      have hyne : some y ≠ s.last := by
        rw [← hx]
        intro hcon
        exact hxny (by injection hcon with h; exact h.symm)
      obtain ⟨f, hf⟩ := hfuel
      rw [hf]
      have hred : popAvoid s.types s.last (x :: t) (f + 1) =
          popAvoid s.types s.last (t ++ [x]) f := by
        simp [popAvoid, hx, hlen]
      rw [hred, hyt]
      have hfne : f ≠ 0 := by
        rw [hxt, hyt] at hlen2
        simp only [List.length_cons] at hlen2
        have := hperm.length_eq
        omega
      obtain ⟨f', hf'⟩ : ∃ f', f = f' + 1 := ⟨f - 1, by omega⟩
      rw [hf']
      rw [show ((y :: t') ++ [x]) = y :: (t' ++ [x]) from rfl]
      rw [popAvoid_of_head_ne hyne]
      refine ⟨hyne, ?_, ?_⟩
      · rw [hxt, hyt] at hqnd2
        have hxt' : (x :: t').Nodup := by
          have h1 : (x :: y :: t').Nodup := hqnd2
          rcases List.nodup_cons.mp h1 with ⟨hx1, h2⟩
          rcases List.nodup_cons.mp h2 with ⟨hy1, h3⟩
          exact List.nodup_cons.mpr ⟨fun hc => hx1 (List.mem_cons_of_mem _ hc), h3⟩
        exact (List.perm_append_singleton x t').nodup_iff.mpr hxt'
      · intro z hz
        rw [hxt, hyt] at hqnd2
        rcases List.nodup_cons.mp hqnd2 with ⟨hx1, h2⟩
        rcases List.nodup_cons.mp h2 with ⟨hy1, h3⟩
        rcases List.mem_append.mp hz with hz | hz
        · intro hcon
          injection hcon with hcon
          rw [hcon] at hz
          exact hy1 hz
        · rw [List.mem_singleton] at hz
          rw [hz]
          intro hcon
          injection hcon with hcon
          exact hxny hcon
    · rw [popAvoid_of_head_ne hx]
      rcases List.nodup_cons.mp (by rw [hxt] at hqnd2; exact hqnd2) with ⟨hx1, h2⟩
      refine ⟨hx, h2, ?_⟩
      intro z hz hcon
      injection hcon with hcon
      rw [hcon] at hz
      exact hx1 hz
  · simp only [hq, if_false, Bool.false_eq_true]
    obtain ⟨x, t, hxt⟩ : ∃ x t, s.queue = x :: t := by
      cases hc : s.queue with
      | nil => rw [hc] at hq; simp at hq
      | cons a l => exact ⟨a, l, rfl⟩
    rw [hxt]
    have hx : some x ≠ s.last := hql x (by rw [hxt]; simp)
    rw [popAvoid_of_head_ne hx]
    rcases List.nodup_cons.mp (by rw [hxt] at hqnd; exact hqnd) with ⟨hx1, h2⟩
    refine ⟨hx, h2, ?_⟩
    intro z hz hcon
    injection hcon with hcon
    rw [hcon] at hz
    exact hx1 hz

/-- With pairwise-distinct kinds (more than one), the emission sequence,
prefixed by the last emitted kind, has no two adjacent equal entries. -/
theorem runTracker_chain {types : List String} (hnd : types.Nodup)
    (hlen : 1 < types.length) :
    ∀ (n : ℕ) (sh : ℕ → List String → List String) (s : TrackerState),
      (∀ i l, (sh i l).Perm l) → s.types = types → s.queue.Nodup →
      (∀ x ∈ s.queue, some x ≠ s.last) →
      List.Chain' Ne (s.last.toList ++ (runTracker sh s n).1) := by
  intro n
  induction n with
  | zero =>
    intro sh s _ _ _ _
    show List.Chain' Ne (s.last.toList ++ [])
    rw [List.append_nil]
    cases s.last with
    | none => exact List.chain'_nil
    | some l => exact List.chain'_singleton l
  | succ m ih =>
    intro sh s hsh hty hqnd hql
    have hperm0 : (sh 0 s.types).Perm s.types := hsh 0 s.types
    have hnd' : s.types.Nodup := by rw [hty]; exact hnd
    have hlen' : 1 < s.types.length := by rw [hty]; exact hlen
    obtain ⟨hne, hqnd1, hql1⟩ := next_type_inv hperm0 hnd' hlen' hqnd hql
    have hih := ih (fun i => sh (i + 1)) (next_type (sh 0) s).2
      (fun i l => hsh (i + 1) l) (by rw [next_type_types]; exact hty)
      hqnd1 (by rw [next_type_last]; exact hql1)
    rw [next_type_last] at hih
    show List.Chain' Ne (s.last.toList ++ ((next_type (sh 0) s).1 ::
      (runTracker (fun i => sh (i + 1)) (next_type (sh 0) s).2 m).1))
    cases hl : s.last with
    | none => simpa using hih
    | some l =>
      simp only [Option.toList, List.cons_append, List.nil_append]
      rw [List.chain'_cons]
      constructor
      · intro hcon
        rw [hl] at hne
        exact hne (by rw [hcon])
      · simpa using hih

/-- With exactly one configured kind, every call returns that kind (the
avoid-duplicates loop is disabled by `len(types) > 1`, and its attempt
budget bounds it in any case). -/
theorem runTracker_single : ∀ (n : ℕ) (sh : ℕ → List String → List String)
    (t : String) (s : TrackerState),
    (∀ i l, (sh i l).Perm l) → s.types = [t] → (s.queue = [] ∨ s.queue = [t]) →
    (runTracker sh s n).1 = List.replicate n t := by
  intro n
  induction n with
  | zero => intro sh t s _ _ _; rfl
  | succ m ih =>
    intro sh t s hsh hty hq
    have hQ : (if s.queue.isEmpty then sh 0 s.types else s.queue) = [t] := by
      rcases hq with hq | hq
      · rw [hq, hty]
        simp only [List.isEmpty_nil, if_true]
        exact List.perm_singleton.mp (hsh 0 [t])
      · rw [hq]
        simp
    have hstep1 : (next_type (sh 0) s).1 = t := by
      unfold next_type
      dsimp only
      rw [hQ, hty]
      simp [popAvoid]
    have hstep2 : ((next_type (sh 0) s).2).queue = [] := by
      unfold next_type
      dsimp only
      rw [hQ, hty]
      simp [popAvoid]
    show (next_type (sh 0) s).1 ::
      (runTracker (fun i => sh (i + 1)) (next_type (sh 0) s).2 m).1 = _
    rw [hstep1, ih (fun i => sh (i + 1)) t (next_type (sh 0) s).2
      (fun i l => hsh (i + 1) l) (by rw [next_type_types]; exact hty)
      (Or.inl hstep2)]
    rfl

/-! ### Claim C9 -/

/-- C9 counterexample: with the multiset configuration `["a","a","b"]` —
more than one configured kind (two distinct kinds, three entries, so the
loop guard `len(types) > 1` holds) — and the identity permutation as the
shuffle outcome, calls 5 and 6 both return `"a"`: two consecutive equal
results. -/
theorem C9_counterexample_duplicate_configured_kinds :
    (runTracker (fun _ l => l) (trackerInit (some ["a", "a", "b"])) 6).1 =
      ["a", "b", "a", "b", "a", "a"] ∧
    ¬ List.Chain' Ne
      (runTracker (fun _ l => l) (trackerInit (some ["a", "a", "b"])) 6).1 ∧
    1 < (trackerInit (some ["a", "a", "b"])).types.length ∧
    (∀ (i : ℕ) (l : List String),
      ((fun (_ : ℕ) (l' : List String) => l') i l).Perm l) :=
  ⟨rfl,
   by
    have h : (runTracker (fun _ l => l) (trackerInit (some ["a", "a", "b"])) 6).1 =
        ["a", "b", "a", "b", "a", "a"] := rfl
    rw [h]
    simp [List.chain'_cons],
   by decide, fun _ l => List.Perm.refl l⟩

/-- C9 (amended): for every tracker over pairwise-distinct configured
kinds and every shuffle oracle (any sequence of permutations): (1) with
more than one kind, no two consecutive `next_type` results are equal;
(2) with exactly one configured kind, every call returns that kind (and
terminates — the loop is fuel-bounded by construction); (3) for any
non-empty configuration, every run of `2 × len(kinds)` consecutive calls
contains every configured kind. -/
theorem C9_tracker_variety_guarantees :
    ∀ (types : List String) (sh : ℕ → List String → List String),
      (∀ i l, (sh i l).Perm l) →
      (types.Nodup → 1 < types.length → ∀ n,
        List.Chain' Ne ((runTracker sh (trackerInit (some types)) n).1)) ∧
      (∀ t n, types = [t] →
        (runTracker sh (trackerInit (some types)) n).1 = List.replicate n t) ∧
      (types ≠ [] → ∀ (k : ℕ) (t : String), t ∈ types →
        t ∈ ((runTracker sh (trackerInit (some types)) (k + 2 * types.length)).1.drop k)) := by
  intro types sh hsh
  refine ⟨?_, ?_, ?_⟩
  · intro hnd hlen n
    have hty : types ≠ [] := by
      intro hc
      rw [hc] at hlen
      simp at hlen
    rw [trackerInit_of_ne hty]
    have h := runTracker_chain hnd hlen n sh ⟨types, types, none⟩ hsh rfl hnd
      (fun x _ => by simp)
    simpa using h
  · intro t n hty
    subst hty
    rw [trackerInit_of_ne (by simp)]
    exact runTracker_single n sh t ⟨[t], [t], none⟩ hsh rfl (Or.inr rfl)
  · intro hty k t ht
    exact runTracker_window_drop k sh types hsh hty t ht

/-- Witness for C9 (amended) at the two-kind configuration `["a","b"]`,
the singleton `["solo"]`, and a window starting after 3 calls. -/
theorem C9_tracker_variety_guarantees_witness :
    List.Chain' Ne ((runTracker (fun _ l => l)
      (trackerInit (some ["a", "b"])) 5).1) ∧
    (runTracker (fun _ l => l) (trackerInit (some ["solo"])) 4).1 =
      List.replicate 4 "solo" ∧
    "b" ∈ ((runTracker (fun _ l => l)
      (trackerInit (some ["a", "b"])) (3 + 2 * (["a", "b"] : List String).length)).1.drop 3) :=
  ⟨(C9_tracker_variety_guarantees ["a", "b"] (fun _ l => l)
      (fun _ l => List.Perm.refl l)).1 (by decide) (by decide) 5,
   (C9_tracker_variety_guarantees ["solo"] (fun _ l => l)
      (fun _ l => List.Perm.refl l)).2.1 "solo" 4 rfl,
   (C9_tracker_variety_guarantees ["a", "b"] (fun _ l => l)
      (fun _ l => List.Perm.refl l)).2.2 (by decide) 3 "b" (by decide)⟩

end SciScroll
